import Mathlib

/-!
Verification of the FHIR normalization/validation engine of the
HealthcareMedConnect repository: a shallow embedding of
`src/core/fhir/validators.py`, `src/api/models/patient.py`,
`src/api/models/observation.py`, `src/api/handlers/ml_handler.py`
(feature extraction) and `src/core/ml/models/risk_predictor.py`,
together with theorems settling the behavioural claims about them.

Conventions of the embedding:
* Python `dict` payloads are modelled as structures with `Option` fields
  (key absent = `none`); free-form string dicts become association lists.
* Python truthiness is made explicit: for an optional string the value is
  truthy when it is present and non-empty, for an optional bool when it is
  `some true`, for an optional int when it is present and non-zero, and for
  an optional object when it is present.
* Machine floats only ever flow through these functions as opaque numbers
  that are compared and added; they are modelled as `Rat`.
* Code that can raise is modelled in `Except String`.
* `datetime.strptime(_, "%Y-%m-%d")`, `datetime.fromisoformat` and `int(_)`
  are Python standard-library routines; they are modelled below by
  executable parsers faithful to their documented grammar on the shapes of
  input this code base feeds them.
-/

deriving instance DecidableEq for Except

set_option allowUnsafeReducibility true

attribute [semireducible] Rat.mul Rat.add Rat.sub Rat.inv Rat.div Rat.ofScientific

/-- Python truthiness of an optional string (absent or empty is falsy). -/
def truthyStr (o : Option String) : Bool :=
  match o with
  | none => false
  | some s => s ≠ ""

/-- Python truthiness of an optional bool (absent or `False` is falsy). -/
def truthyBool (o : Option Bool) : Bool :=
  o.getD false

/-- Python truthiness of an optional int (absent or `0` is falsy). -/
def truthyInt (o : Option Int) : Bool :=
  match o with
  | none => false
  | some n => n ≠ 0

/-- First-match lookup in an association list, modelling `dict.get`. -/
def alookup {α : Type} (k : String) : List (String × α) → Option α
  | [] => none
  | (k', v) :: rest => if k' = k then some v else alookup k rest

/-- Membership of a key in an association list, modelling `k in dict`. -/
def akey {α : Type} (k : String) (m : List (String × α)) : Bool :=
  (alookup k m).isSome

/-- `dict[k] = v`: overwrite the first binding of `k`, or append a new one
(Python dicts keep the original position of an overwritten key). -/
def aset {α : Type} (k : String) (v : α) : List (String × α) → List (String × α)
  | [] => [(k, v)]
  | (k', v') :: rest =>
      if k' = k then (k', v) :: rest else (k', v') :: aset k v rest

/-!
String scanning is done on the character list of the string
(`String.data`) with structurally recursive helpers, so that every
definition evaluates by plain reduction. -/

/-- `pat` is a prefix of `l`. -/
def isPrefixCh : List Char → List Char → Bool
  | [], _ => true
  | _ :: _, [] => false
  | p :: ps, c :: cs => if p = c then isPrefixCh ps cs else false

/-- `pat` is a prefix of `s` (Python `s.startswith(pat)`). -/
def pyStartsWith (s pat : String) : Bool :=
  isPrefixCh pat.data s.data

/-- Split on a one-character separator (Python `s.split(sep)` for the
single-character separators used in this code base). -/
def splitOnCh (sep : Char) : List Char → List (List Char)
  | [] => [[]]
  | c :: cs =>
      let rest := splitOnCh sep cs
      if c = sep then [] :: rest
      else
        match rest with
        | [] => [[c]]
        | r :: rs => (c :: r) :: rs

/-- Left-to-right non-overlapping substring replacement, with fuel for
structural termination (the fuel is instantiated with the input length,
which bounds the number of steps). -/
def replaceFuel (pat repl : List Char) : Nat → List Char → List Char
  | _, [] => []
  | 0, l => l
  | fuel + 1, c :: cs =>
      if isPrefixCh pat (c :: cs) then
        repl ++ replaceFuel pat repl fuel (List.drop (pat.length - 1) cs)
      else c :: replaceFuel pat repl fuel cs

/-- Python `s.replace(pat, repl)` for non-empty `pat`. -/
def pyReplace (s pat repl : String) : String :=
  if pat = "" then s else ⟨replaceFuel pat.data repl.data s.data.length s.data⟩

/-- All characters are ASCII digits (and there is at least one). -/
def chDigits (l : List Char) : Bool :=
  decide (l ≠ []) && l.all (fun c => c.isDigit)

/-- Digit characters to a natural number. -/
def chToNat (l : List Char) : Nat :=
  l.foldl (fun acc c => acc * 10 + (c.toNat - 48)) 0

/-- Model of Python `int(s)` on strings: optional surrounding whitespace,
an optional sign, then at least one digit; anything else raises
(`none`). -/
def pyInt (s : String) : Option Int :=
  let t := ((s.data.dropWhile Char.isWhitespace).reverse.dropWhile Char.isWhitespace).reverse
  match t with
  | '-' :: ds => if chDigits ds then some (-(chToNat ds : Int)) else none
  | '+' :: ds => if chDigits ds then some (chToNat ds) else none
  | ds => if chDigits ds then some (chToNat ds) else none

/-- Days in a month of the proleptic Gregorian calendar. -/
def daysInMonth (y : Nat) (m : Nat) : Nat :=
  if m = 2 then
    if y % 4 = 0 ∧ (y % 100 ≠ 0 ∨ y % 400 = 0) then 29 else 28
  else if m = 4 ∨ m = 6 ∨ m = 9 ∨ m = 11 then 30
  else 31

/-- Model of `datetime.strptime(s, "%Y-%m-%d")`: exactly four year digits,
one or two month digits in 1..12, one or two day digits valid for the
month, the whole string consumed.  Returns the parsed (year, month, day). -/
def parseYMDCh (l : List Char) : Option (Nat × Nat × Nat) :=
  match splitOnCh '-' l with
  | [ys, ms, ds] =>
      if chDigits ys ∧ ys.length = 4 ∧ chDigits ms ∧ ms.length ≤ 2 ∧
         chDigits ds ∧ ds.length ≤ 2 then
        let y := chToNat ys
        let m := chToNat ms
        let d := chToNat ds
        if 1 ≤ y ∧ 1 ≤ m ∧ m ≤ 12 ∧ 1 ≤ d ∧ d ≤ daysInMonth y m then
          some (y, m, d)
        else none
      else none
  | _ => none

/-- `parseYMDCh` on a string. -/
def parseYMD (s : String) : Option (Nat × Nat × Nat) :=
  parseYMDCh s.data

/-- `datetime.strptime(s, "%Y-%m-%d")` succeeds. -/
def isYMD (s : String) : Bool :=
  (parseYMD s).isSome

/-- Strict comparison of two parsed calendar dates. -/
def ymdLt (a b : Nat × Nat × Nat) : Bool :=
  a.1 < b.1 ∨ (a.1 = b.1 ∧ (a.2.1 < b.2.1 ∨ (a.2.1 = b.2.1 ∧ a.2.2 < b.2.2)))

/-- Two-digit numeric component bounded by `hi`. -/
def twoDigitsLE (l : List Char) (hi : Nat) : Bool :=
  chDigits l && decide (l.length = 2) && decide (chToNat l ≤ hi)

/-- One time-zone offset `HH:MM[:SS]` with each component in range. -/
def validOffset (l : List Char) : Bool :=
  match splitOnCh ':' l with
  | [h, m] => twoDigitsLE h 23 && twoDigitsLE m 59
  | [h, m, sec] => twoDigitsLE h 23 && twoDigitsLE m 59 && twoDigitsLE sec 59
  | _ => false

/-- The `HH:MM[:SS[.ffffff]]` part of an ISO time. -/
def validClock (l : List Char) : Bool :=
  match splitOnCh ':' l with
  | [h, m] => twoDigitsLE h 23 && twoDigitsLE m 59
  | [h, m, secFrac] =>
      twoDigitsLE h 23 && twoDigitsLE m 59 &&
      (match splitOnCh '.' secFrac with
       | [sec] => twoDigitsLE sec 59
       | [sec, frac] =>
           twoDigitsLE sec 59 && chDigits frac &&
           decide (frac.length = 3 ∨ frac.length = 6)
       | _ => false)
  | _ => false

/-- The time-with-offset tail of an ISO timestamp. -/
def validTimePart (l : List Char) : Bool :=
  if l.length ≥ 6 ∧ isPrefixCh ['+'] (l.drop (l.length - 6)) then
    validClock (l.take (l.length - 6)) && validOffset (l.drop (l.length - 5))
  else if l.length ≥ 6 ∧ isPrefixCh ['-'] (l.drop (l.length - 6)) then
    validClock (l.take (l.length - 6)) && validOffset (l.drop (l.length - 5))
  else
    validClock l

/-- Model of `datetime.fromisoformat(s)` (Python < 3.11 grammar):
`YYYY-MM-DD`, optionally followed by a one-character separator and
`HH:MM[:SS[.fff[fff]]]`, optionally with a `±HH:MM` offset.  A trailing
`Z` is not accepted (the call sites that want to accept `Z` first rewrite
it to `+00:00`). -/
def pyFromIso (s : String) : Bool :=
  let l := s.data
  if (parseYMDCh (l.take 10)).isSome then
    if l.length = 10 then true
    else if l.length ≥ 12 then validTimePart (l.drop 11)
    else false
  else false

/-! ## `src/core/fhir/validators.py` — `FHIRValidator`

The validator receives a parsed `fhir.resources` Observation.  The fields
it reads are embedded below; value-like payloads whose content the
validator never inspects (it only tests their presence) are carried as
small structures so that their Python truthiness (object present) is
`Option.isSome`. -/

/-- A `Coding` element as the validator sees it. -/
structure FCoding where
  system : Option String
  code : Option String
  display : Option String
deriving DecidableEq, Repr

/-- A `CodeableConcept` as the validator sees it. -/
structure FCC where
  coding : Option (List FCoding)
  text : Option String
deriving DecidableEq, Repr

/-- A FHIR `Reference` (only `reference` is read). -/
structure FRef where
  reference : Option String
deriving DecidableEq, Repr

/-- A FHIR `Quantity` (only its presence is tested by the validator). -/
structure FQuantity where
  value : Option Rat
  unit : Option String
deriving DecidableEq, Repr

/-- A FHIR `Period` (only its presence is tested). -/
structure FPeriod where
  startDate : Option String
  endDate : Option String
deriving DecidableEq, Repr

/-- A FHIR `Range` (only its presence is tested). -/
structure FRange where
  low : Option FQuantity
  high : Option FQuantity
deriving DecidableEq, Repr

/-- A FHIR `Ratio` (only its presence is tested). -/
structure FRatio where
  numerator : Option FQuantity
  denominator : Option FQuantity
deriving DecidableEq, Repr

/-- FHIR `SampledData` (only its presence is tested). -/
structure FSampledData where
  data : Option String
deriving DecidableEq, Repr

/-- An Observation component as the validator sees it (only the length of
the component list is tested). -/
structure FComponent where
  code : Option FCC
deriving DecidableEq, Repr

/-- The fields of a `fhir.resources` Observation read by
`FHIRValidator.validate_observation`. -/
structure FHIRObservation where
  resource_type : String
  id : Option String
  status : Option String
  code : Option FCC
  subject : Option FRef
  effectiveDateTime : Option String
  effectivePeriod : Option FPeriod
  valueQuantity : Option FQuantity
  valueCodeableConcept : Option FCC
  valueString : Option String
  valueBoolean : Option Bool
  valueInteger : Option Int
  valueRange : Option FRange
  valueRatio : Option FRatio
  valueSampledData : Option FSampledData
  valueTime : Option String
  valueDateTime : Option String
  valuePeriod : Option FPeriod
  dataAbsentReason : Option FCC
  component : Option (List FComponent)
deriving DecidableEq, Repr

/-- The valid observation status codes (`validators.py` line 131). -/
def validObservationStatuses : List String :=
  ["registered", "preliminary", "final", "amended",
   "corrected", "cancelled", "entered-in-error", "unknown"]

/-- Resource-type rule of `validate_observation`. -/
def obsResourceTypeErrors (o : FHIRObservation) : List String :=
  if o.resource_type ≠ "Observation" then ["Resource type must be \x27Observation\x27"] else []

/-- Id rule of `validate_observation`. -/
def obsIdErrors (o : FHIRObservation) : List String :=
  if ¬ truthyStr o.id then ["Observation ID is required"] else []

/-- Status rule of `validate_observation`. -/
def obsStatusErrors (o : FHIRObservation) : List String :=
  if ¬ truthyStr o.status then ["Observation status is required"]
  else if o.status.getD "" ∉ validObservationStatuses then ["Observation status is invalid"]
  else []

/-- Per-coding checks inside the code rule. -/
def obsCodingErrors (c : FCoding) : List String :=
  (if ¬ truthyStr c.system then ["Observation code coding must have a system"] else []) ++
  (if ¬ truthyStr c.code then ["Observation code coding must have a code"] else [])

/-- Code rule of `validate_observation`. -/
def obsCodeErrors (o : FHIRObservation) : List String :=
  match o.code with
  | none => ["Observation code is required"]
  | some c =>
      match c.coding with
      | none => ["Observation code must have at least one coding"]
      | some [] => ["Observation code must have at least one coding"]
      | some l => l.flatMap obsCodingErrors

/-- Subject rule of `validate_observation`. -/
def obsSubjectErrors (o : FHIRObservation) : List String :=
  match o.subject with
  | none => ["Observation subject is required"]
  | some s =>
      if ¬ truthyStr s.reference then ["Observation subject reference is required"]
      else if ¬ pyStartsWith (s.reference.getD "") "Patient/" then
        ["Observation subject reference must be a Patient"]
      else []

/-- Effective date/time rule of `validate_observation`. -/
def obsEffectiveErrors (o : FHIRObservation) : List String :=
  if ¬ truthyStr o.effectiveDateTime ∧ o.effectivePeriod.isNone then
    ["Observation must have an effective date/time or period"]
  else if truthyStr o.effectiveDateTime then
    if ¬ pyFromIso (pyReplace (o.effectiveDateTime.getD "") "Z" "+00:00") then
      ["Observation effective date/time must be in ISO format"]
    else []
  else []

/-- The `has_value` expression of `validate_observation` (lines 167-179):
a Python truthiness test over the eleven `value[x]` fields, so a
`valueBoolean` of `False`, a `valueInteger` of `0` and an empty
`valueString` all count as no value. -/
def obsHasValue (o : FHIRObservation) : Bool :=
  o.valueQuantity.isSome || o.valueCodeableConcept.isSome ||
  truthyStr o.valueString || truthyBool o.valueBoolean ||
  truthyInt o.valueInteger || o.valueRange.isSome ||
  o.valueRatio.isSome || o.valueSampledData.isSome ||
  o.valueTime.isSome || o.valueDateTime.isSome || o.valuePeriod.isSome

/-- The value-presence violation message. -/
def valuePresenceMsg : String :=
  "Observation must have a value, data absent reason, or component"

/-- Value-presence rule of `validate_observation` (lines 167-185). -/
def obsValueErrors (o : FHIRObservation) : List String :=
  if ¬ obsHasValue o ∧ o.dataAbsentReason.isNone ∧ o.component.getD [] = [] then
    [valuePresenceMsg]
  else []

/-- `FHIRValidator.validate_observation`: every rule runs, each appends its
violations to one list; the Python function raises `ValidationError` with
this list exactly when it is non-empty. -/
def validate_observation (o : FHIRObservation) : List String :=
  obsResourceTypeErrors o ++ obsIdErrors o ++ obsStatusErrors o ++
  obsCodeErrors o ++ obsSubjectErrors o ++ obsEffectiveErrors o ++
  obsValueErrors o

/-! ## `src/api/models/patient.py` — `Patient` and its FHIR codec

The internal pydantic models become plain structures; the wire-level FHIR
JSON objects become `Raw…` structures with `Option` fields (key omitted
= `none`).  Free-form `coding` dictionaries are association lists.
Construction of a pydantic model runs its `@validator` methods, so
`from_fhir` is `Except String _`; the non-deterministic defaults
(`uuid.uuid4()`, `datetime.utcnow()`) are passed in as the explicit
arguments `fresh` and `now`. -/

/-- A free-form `coding` element: a string-to-string dictionary. -/
def CodingDict := List (String × String)
deriving DecidableEq, Repr

/-- Wire-level `CodeableConcept`: `{"coding": [...], "text": ...}`. -/
structure RawCC where
  coding : Option (List CodingDict)
  text : Option String
deriving DecidableEq, Repr

/-- Wire-level `meta` object. -/
structure RawMeta where
  versionId : Option String
  lastUpdated : Option String
deriving DecidableEq, Repr

/-- Wire-level Patient `identifier` element. -/
structure RawIdentifier where
  system : Option String
  value : Option String
  type : Option RawCC
  use : Option String
deriving DecidableEq, Repr

/-- Wire-level Patient `name` element. -/
structure RawName where
  family : Option String
  given : Option (List String)
  prefixes : Option (List String)
  suffixes : Option (List String)
  use : Option String
deriving DecidableEq, Repr

/-- Wire-level Patient `address` element. -/
structure RawAddress where
  line : Option (List String)
  city : Option String
  state : Option String
  postalCode : Option String
  country : Option String
  use : Option String
deriving DecidableEq, Repr

/-- Wire-level Patient `telecom` element. -/
structure RawTelecom where
  system : Option String
  value : Option String
  use : Option String
  rank : Option Int
deriving DecidableEq, Repr

/-- Wire-level FHIR Patient resource (the keys `Patient.from_fhir`
reads; `address`, `telecom`, `identifier` and `name` default to the empty
list when the key is absent, exactly as `fhir_data.get(k, [])` does). -/
structure RawPatient where
  id : Option String
  meta : Option RawMeta
  active : Option Bool
  identifier : List RawIdentifier
  name : List RawName
  gender : Option String
  birthDate : Option String
  deceasedBoolean : Option Bool
  deceasedDateTime : Option String
  address : List RawAddress
  telecom : List RawTelecom
  maritalStatus : Option RawCC
  communication : Option (List CodingDict)
  extension : Option (List (String × String))
deriving DecidableEq, Repr

/-- `api.models.patient.Identifier`. -/
structure Identifier where
  system : String
  value : String
  type : Option String
  use : Option String
deriving DecidableEq, Repr

/-- `api.models.patient.HumanName` (`prefix`/`suffix` are called
`prefixes`/`suffixes` here because `prefix` is reserved in Lean). -/
structure HumanName where
  family : String
  given : List String
  prefixes : Option (List String)
  suffixes : Option (List String)
  use : String
deriving DecidableEq, Repr

/-- `api.models.patient.Address`. -/
structure Address where
  line : List String
  city : String
  state : String
  postal_code : String
  country : String
  use : String
deriving DecidableEq, Repr

/-- `api.models.patient.ContactPoint`. -/
structure ContactPoint where
  system : String
  value : String
  use : String
  rank : Option Int
deriving DecidableEq, Repr

/-- `api.models.patient.Patient`. -/
structure Patient where
  patient_id : String
  version : String
  active : Bool
  identifiers : List Identifier
  name : List HumanName
  gender : String
  birth_date : String
  deceased : Bool
  deceased_date : Option String
  address : Option (List Address)
  telecom : Option (List ContactPoint)
  marital_status : Option String
  communication : Option (List CodingDict)
  extension : Option (List (String × String))
  created_at : String
  updated_at : String
deriving DecidableEq, Repr

/-- The `validate_birth_date` pydantic validator: `birth_date` must parse
with `"%Y-%m-%d"`. -/
def birthDateError (birth_date : String) : Option String :=
  if isYMD birth_date then none
  else some "birth_date must be in YYYY-MM-DD format"

/-- The `validate_deceased_date` pydantic validator: a present
`deceased_date` must parse with `"%Y-%m-%d"` and must not precede
`birth_date`. -/
def deceasedDateError (birth_date : String) (deceased_date : Option String) : Option String :=
  match deceased_date with
  | none => none
  | some d =>
      match parseYMD d, parseYMD birth_date with
      | some dd, some bd =>
          if ymdLt dd bd then some "deceased_date cannot be before birth_date" else none
      | _, _ => some "deceased_date must be in YYYY-MM-DD format"

/-- Run both Patient model validators, then build the record. -/
def mkPatient (p : Patient) : Except String Patient :=
  match birthDateError p.birth_date with
  | some e => .error e
  | none =>
      match deceasedDateError p.birth_date p.deceased_date with
      | some e => .error e
      | none => .ok p

/-- `Patient.to_fhir`, encoding one identifier: `type` is emitted as
`{"coding": [{"code": type}]}` only when `type` is truthy. -/
def encIdentifier (i : Identifier) : RawIdentifier :=
  { system := some i.system
    value := some i.value
    type := if truthyStr i.type then some ⟨some [[("code", i.type.getD "")]], none⟩ else none
    use := i.use }

/-- `Patient.to_fhir`, encoding one name. -/
def encName (n : HumanName) : RawName :=
  { family := some n.family, given := some n.given,
    prefixes := n.prefixes, suffixes := n.suffixes, use := some n.use }

/-- `Patient.to_fhir`, encoding one address. -/
def encAddress (a : Address) : RawAddress :=
  { line := some a.line, city := some a.city, state := some a.state,
    postalCode := some a.postal_code, country := some a.country, use := some a.use }

/-- `Patient.to_fhir`, encoding one contact point. -/
def encTelecom (t : ContactPoint) : RawTelecom :=
  { system := some t.system, value := some t.value, use := some t.use, rank := t.rank }

/-- `Patient.to_fhir` (lines 90-146).  `deceasedBoolean` is always
emitted; `deceasedDateTime` is emitted exactly when `deceased_date` is
set (the trailing `None`-filter removes only absent values). -/
def Patient.to_fhir (p : Patient) : RawPatient :=
  { id := some p.patient_id
    meta := some ⟨some p.version, some p.updated_at⟩
    active := some p.active
    identifier := p.identifiers.map encIdentifier
    name := p.name.map encName
    gender := some p.gender
    birthDate := some p.birth_date
    deceasedBoolean := some p.deceased
    deceasedDateTime := p.deceased_date
    address := (p.address.getD []).map encAddress
    telecom := (p.telecom.getD []).map encTelecom
    maritalStatus :=
      if truthyStr p.marital_status then
        some ⟨some [[("code", p.marital_status.getD "")]], none⟩
      else none
    communication := p.communication
    extension := p.extension }

/-- `Patient.from_fhir`, decoding one identifier:
`type.coding[0].code` when `type` and its `coding` are truthy. -/
def decIdentifier (i : RawIdentifier) : Identifier :=
  { system := i.system.getD ""
    value := i.value.getD ""
    type :=
      match i.type with
      | none => none
      | some cc =>
          match cc.coding with
          | some (c :: _) => alookup "code" c
          | _ => none
    use := i.use }

/-- `Patient.from_fhir`, decoding one name. -/
def decName (n : RawName) : HumanName :=
  { family := n.family.getD "", given := n.given.getD [],
    prefixes := n.prefixes, suffixes := n.suffixes, use := n.use.getD "official" }

/-- `Patient.from_fhir`, decoding one address. -/
def decAddress (a : RawAddress) : Address :=
  { line := a.line.getD [], city := a.city.getD "", state := a.state.getD "",
    postal_code := a.postalCode.getD "", country := a.country.getD "", use := a.use.getD "home" }

/-- `Patient.from_fhir`, decoding one contact point. -/
def decTelecom (t : RawTelecom) : ContactPoint :=
  { system := t.system.getD "", value := t.value.getD "", use := t.use.getD "home", rank := t.rank }

/-- The deceased logic of `Patient.from_fhir` (lines 199-205): start from
`deceasedBoolean` if present; a present `deceasedDateTime` then forces
`deceased = True` and sets the date. -/
def decodeDeceased (r : RawPatient) : Bool × Option String :=
  let deceased := match r.deceasedBoolean with
    | some b => b
    | none => false
  match r.deceasedDateTime with
  | some d => (true, some d)
  | none => (deceased, none)

/-- `Patient.from_fhir` (lines 148-224).  `fresh` stands for
`str(uuid.uuid4())` and `now` for `datetime.utcnow().isoformat()`;
constructing the pydantic model runs the two validators above, so the
decode raises (`Except.error`) when the (possibly defaulted) birth date
does not parse. -/
def Patient.from_fhir (r : RawPatient) (fresh now : String) : Except String Patient :=
  let dec := decodeDeceased r
  mkPatient
    { patient_id := r.id.getD fresh
      version := (r.meta.getD ⟨none, none⟩).versionId.getD now
      active := r.active.getD true
      identifiers := r.identifier.map decIdentifier
      name := r.name.map decName
      gender := r.gender.getD "unknown"
      birth_date := r.birthDate.getD ""
      deceased := dec.1
      deceased_date := dec.2
      address := match r.address.map decAddress with
        | [] => none
        | l => some l
      telecom := match r.telecom.map decTelecom with
        | [] => none
        | l => some l
      marital_status :=
        match r.maritalStatus with
        | none => none
        | some cc =>
            match cc.coding with
            | some (c :: _) => alookup "code" c
            | _ => none
      communication := r.communication
      extension := r.extension
      created_at := now
      updated_at := now }

/-! ## `src/api/models/observation.py` — `Observation` and its FHIR codec

Pass-through payloads that neither codec direction inspects
(`encounter`, `performer`, `note`, `specimen`, `device`,
`referenceRange`, `hasMember`, `derivedFrom`) are carried as opaque
string-dictionary lists. -/

/-- `api.models.observation.Quantity`. -/
structure Quantity where
  value : Rat
  unit : String
  system : Option String
  code : Option String
deriving DecidableEq, Repr

/-- `api.models.observation.CodeableConcept`. -/
structure CodeableConcept where
  coding : List CodingDict
  text : Option String
deriving DecidableEq, Repr

/-- `api.models.observation.ObservationComponent`. -/
structure ObservationComponent where
  code : CodeableConcept
  value_quantity : Option Quantity
  value_string : Option String
  value_boolean : Option Bool
  value_integer : Option Int
  value_codeable_concept : Option CodeableConcept
deriving DecidableEq, Repr

/-- Wire-level `valueQuantity` object. -/
structure RawQuantity where
  value : Option Rat
  unit : Option String
  system : Option String
  code : Option String
deriving DecidableEq, Repr

/-- A wire-level Observation `component` element.  The decoder reads the
camel-case `value[x]` keys; `Observation.to_fhir` emits components with
`component.dict()`, whose keys are the snake-case pydantic field names,
so the encoder fills the `value_…` fields and leaves the `value[x]`
fields empty. -/
structure RawComponent where
  code : Option RawCC
  valueQuantity : Option RawQuantity
  valueString : Option String
  valueBoolean : Option Bool
  valueInteger : Option Int
  valueCodeableConcept : Option RawCC
  value_quantity : Option RawQuantity
  value_string : Option String
  value_boolean : Option Bool
  value_integer : Option Int
  value_codeable_concept : Option RawCC
deriving DecidableEq, Repr

/-- Wire-level FHIR Observation resource (the keys the codec touches;
list-valued keys that default to `[]` on read are plain lists). -/
structure RawObservation where
  id : Option String
  meta : Option RawMeta
  status : Option String
  category : List RawCC
  code : Option RawCC
  subject : List (String × String)
  encounter : Option (List (String × String))
  effectiveDateTime : Option String
  issued : Option String
  performer : Option (List CodingDict)
  valueQuantity : Option RawQuantity
  valueString : Option String
  valueBoolean : Option Bool
  valueInteger : Option Int
  valueCodeableConcept : Option RawCC
  dataAbsentReason : Option RawCC
  interpretation : List RawCC
  note : Option (List CodingDict)
  bodySite : Option RawCC
  method : Option RawCC
  specimen : Option (List (String × String))
  device : Option (List (String × String))
  referenceRange : Option (List CodingDict)
  hasMember : Option (List CodingDict)
  derivedFrom : Option (List CodingDict)
  component : List RawComponent
deriving DecidableEq, Repr

/-- `api.models.observation.Observation`. -/
structure Observation where
  observation_id : String
  status : String
  category : List CodeableConcept
  code : CodeableConcept
  subject : List (String × String)
  patient_id : String
  encounter : Option (List (String × String))
  effective_date_time : String
  timestamp : String
  issued : String
  performer : Option (List CodingDict)
  value_quantity : Option Quantity
  value_string : Option String
  value_boolean : Option Bool
  value_integer : Option Int
  value_codeable_concept : Option CodeableConcept
  data_absent_reason : Option CodeableConcept
  interpretation : Option (List CodeableConcept)
  note : Option (List CodingDict)
  body_site : Option CodeableConcept
  method : Option CodeableConcept
  specimen : Option (List (String × String))
  device : Option (List (String × String))
  reference_range : Option (List CodingDict)
  has_member : Option (List CodingDict)
  derived_from : Option (List CodingDict)
  component : Option (List ObservationComponent)
  observation_type : String
  created_at : String
  updated_at : String
deriving DecidableEq, Repr

/-- The `validate_status` pydantic validator of `Observation`. -/
def obsStatusFieldError (status : String) : Option String :=
  if status ∈ validObservationStatuses then none
  else some "status must be one of the valid statuses"

/-- The `validate_effective_date_time` pydantic validator of
`Observation` (`datetime.fromisoformat`, with no `Z` rewriting). -/
def obsEffectiveFieldError (e : String) : Option String :=
  if pyFromIso e then none else some "effective_date_time must be in ISO format"

/-- Run both Observation model validators, then build the record. -/
def mkObservation (o : Observation) : Except String Observation :=
  match obsStatusFieldError o.status with
  | some e => .error e
  | none =>
      match obsEffectiveFieldError o.effective_date_time with
      | some e => .error e
      | none => .ok o

/-- Encode a model `CodeableConcept` to its wire dict (`.dict()`). -/
def encCC (c : CodeableConcept) : RawCC :=
  ⟨some c.coding, c.text⟩

/-- Encode a model `Quantity` to its wire dict (`.dict()`). -/
def encQuantity (q : Quantity) : RawQuantity :=
  ⟨some q.value, some q.unit, q.system, q.code⟩

/-- `component.dict()` in `Observation.to_fhir`: pydantic serialises the
snake-case field names, so only the `value_…` keys are populated. -/
def encComponent (c : ObservationComponent) : RawComponent :=
  { code := some (encCC c.code)
    valueQuantity := none
    valueString := none
    valueBoolean := none
    valueInteger := none
    valueCodeableConcept := none
    value_quantity := c.value_quantity.map encQuantity
    value_string := c.value_string
    value_boolean := c.value_boolean
    value_integer := c.value_integer
    value_codeable_concept := c.value_codeable_concept.map encCC }

/-- The `value[x]` emission of `Observation.to_fhir` (lines 149-159): an
`if/elif` chain in the priority order Quantity, String, Boolean, Integer,
CodeableConcept, emitting at most one wire key. -/
def encValue (o : Observation) : RawObservation → RawObservation := fun r =>
  match o.value_quantity with
  | some q => { r with valueQuantity := some (encQuantity q) }
  | none =>
      match o.value_string with
      | some s => { r with valueString := some s }
      | none =>
          match o.value_boolean with
          | some b => { r with valueBoolean := some b }
          | none =>
              match o.value_integer with
              | some n => { r with valueInteger := some n }
              | none =>
                  match o.value_codeable_concept with
                  | some c => { r with valueCodeableConcept := some (encCC c) }
                  | none => r

/-- `Observation.to_fhir` (lines 118-162).  The final `None`-filter means
an optional model field that is `None` simply leaves its key absent;
empty optional lists (`interpretation`, `component`) are also dropped by
their truthiness guards. -/
def Observation.to_fhir (o : Observation) : RawObservation :=
  encValue o
    { id := some o.observation_id
      meta := some ⟨some "1", some o.updated_at⟩
      status := some o.status
      category := o.category.map encCC
      code := some (encCC o.code)
      subject := o.subject
      encounter := o.encounter
      effectiveDateTime := some o.effective_date_time
      issued := some o.issued
      performer := o.performer
      valueQuantity := none
      valueString := none
      valueBoolean := none
      valueInteger := none
      valueCodeableConcept := none
      dataAbsentReason := o.data_absent_reason.map encCC
      interpretation := (o.interpretation.getD []).map encCC
      note := o.note
      bodySite := o.body_site.map encCC
      method := o.method.map encCC
      specimen := o.specimen
      device := o.device
      referenceRange := o.reference_range
      hasMember := o.has_member
      derivedFrom := o.derived_from
      component := (o.component.getD []).map encComponent }

/-- Decode a wire `CodeableConcept` dict. -/
def decCC (c : RawCC) : CodeableConcept :=
  ⟨c.coding.getD [], c.text⟩

/-- Decode a wire `valueQuantity` dict
(`value` defaults to `0.0`, `unit` to `""`). -/
def decQuantity (q : RawQuantity) : Quantity :=
  ⟨q.value.getD 0, q.unit.getD "", q.system, q.code⟩

/-- The five decoded `value[x]` fields. -/
structure DecodedValue where
  value_quantity : Option Quantity
  value_string : Option String
  value_boolean : Option Bool
  value_integer : Option Int
  value_codeable_concept : Option CodeableConcept
deriving DecidableEq, Repr

/-- The value resolution of `Observation.from_fhir` (lines 196-220): an
`if/elif` chain on key presence in the priority order Quantity, String,
Boolean, Integer, CodeableConcept. -/
def resolveValue (r : RawObservation) : DecodedValue :=
  match r.valueQuantity with
  | some q => ⟨some (decQuantity q), none, none, none, none⟩
  | none =>
      match r.valueString with
      | some s => ⟨none, some s, none, none, none⟩
      | none =>
          match r.valueBoolean with
          | some b => ⟨none, none, some b, none, none⟩
          | none =>
              match r.valueInteger with
              | some n => ⟨none, none, none, some n, none⟩
              | none =>
                  match r.valueCodeableConcept with
                  | some c => ⟨none, none, none, none, some (decCC c)⟩
                  | none => ⟨none, none, none, none, none⟩

/-- The component decoding of `Observation.from_fhir` (lines 224-262):
the same key-presence `if/elif` chain, on the camel-case keys. -/
def decComponent (c : RawComponent) : ObservationComponent :=
  { code := decCC (c.code.getD ⟨none, none⟩)
    value_quantity :=
      match c.valueQuantity with
      | some q => some (decQuantity q)
      | none => none
    value_string :=
      match c.valueQuantity with
      | some _ => none
      | none => c.valueString
    value_boolean :=
      match c.valueQuantity, c.valueString with
      | none, none => c.valueBoolean
      | _, _ => none
    value_integer :=
      match c.valueQuantity, c.valueString, c.valueBoolean with
      | none, none, none => c.valueInteger
      | _, _, _ => none
    value_codeable_concept :=
      match c.valueQuantity, c.valueString, c.valueBoolean, c.valueInteger with
      | none, none, none, none => c.valueCodeableConcept.map decCC
      | _, _, _, _ => none }

/-- `patient_id` extraction of `Observation.from_fhir` (lines 183-189):
non-empty `subject` with a `reference` starting `Patient/` yields the
second `/`-separated word, otherwise the empty string. -/
def decodePatientId (subject : List (String × String)) : String :=
  match alookup "reference" subject with
  | none => ""
  | some ref =>
      if pyStartsWith ref "Patient/" then
        ⟨((splitOnCh '/' ref.data).getD 1 [])⟩
      else ""

/-- `observation_type` extraction of `Observation.from_fhir`
(lines 191-194): the `code` of the first coding, else `"unknown"`. -/
def decodeObservationType (code : CodeableConcept) : String :=
  match code.coding with
  | [] => "unknown"
  | c :: _ => (alookup "code" c).getD "unknown"

/-- `Observation.from_fhir` (lines 164-324).  `fresh` stands for
`str(uuid.uuid4())` and `now` for `datetime.utcnow().isoformat()`. -/
def Observation.from_fhir (r : RawObservation) (fresh now : String) : Except String Observation :=
  let code := decCC (r.code.getD ⟨none, none⟩)
  let v := resolveValue r
  mkObservation
    { observation_id := r.id.getD fresh
      status := r.status.getD "unknown"
      category := r.category.map decCC
      code := code
      subject := r.subject
      patient_id := decodePatientId r.subject
      encounter := r.encounter
      effective_date_time := r.effectiveDateTime.getD now
      timestamp := now
      issued := r.issued.getD now
      performer := r.performer
      value_quantity := v.value_quantity
      value_string := v.value_string
      value_boolean := v.value_boolean
      value_integer := v.value_integer
      value_codeable_concept := v.value_codeable_concept
      data_absent_reason := r.dataAbsentReason.map decCC
      interpretation :=
        match r.interpretation.map decCC with
        | [] => none
        | l => some l
      note := r.note
      body_site := r.bodySite.map decCC
      method := r.method.map decCC
      specimen := r.specimen
      device := r.device
      reference_range := r.referenceRange
      has_member := r.hasMember
      derived_from := r.derivedFrom
      component :=
        match r.component.map decComponent with
        | [] => none
        | l => some l
      observation_type := decodeObservationType code
      created_at := now
      updated_at := now }

/-! ## `src/api/handlers/ml_handler.py` — `extract_features` and
`calculate_age`

The inputs are the stored items (plain dictionaries); only the keys the
extractor reads are modelled.  `obs["timestamp"]` and
`obs["value_quantity"]["value"]` are plain subscripts, so a missing key
raises `KeyError`; the extractor is therefore `Except String _`. -/

/-- A stored observation item as `extract_features` reads it.  The
`value_quantity` payload is its dictionary (Python truthiness of a dict
is non-emptiness); a `value_integer` key holding `None` behaves exactly
like an absent key here, so both are `none`. -/
structure StoredObs where
  observation_type : Option String
  value_quantity : Option (List (String × Rat))
  value_integer : Option Int
  timestamp : Option String
deriving DecidableEq, Repr

/-- A stored patient item as `extract_features` reads it. -/
structure StoredPatient where
  gender : Option String
  birth_date : Option String
  deceased : Option Bool
deriving DecidableEq, Repr

/-- One `{"value": ..., "timestamp": ...}` entry of a feature series. -/
structure VEntry where
  value : Rat
  timestamp : String
deriving DecidableEq, Repr

/-- The feature set built by `extract_features`.  The `vital_signs` and
`lab_results` dictionaries are association lists in insertion order. -/
structure Features where
  gender : Option String
  age : Option Int
  deceased : Bool
  vital_signs : List (String × List VEntry)
  lab_results : List (String × List VEntry)
  medications : List String
  conditions : List String
deriving DecidableEq, Repr

/-- `calculate_age` (lines 239-258): `None` on a missing/empty birth
date; otherwise `current_year - int(birth_date.split("-")[0])`, with any
exception from `int(...)` caught and turned into `None`.  `current_year`
(`datetime.now().year`) is passed explicitly. -/
def calculate_age (currentYear : Int) (birth_date : String) : Option Int :=
  if birth_date = "" then none
  else
    match pyInt ⟨(splitOnCh '-' birth_date.data).getD 0 []⟩ with
    | some y => some (currentYear - y)
    | none => none

/-- The fixed vital-sign type list (line 189). -/
def vitalSignTypes : List String :=
  ["heart-rate", "blood-pressure", "respiratory-rate", "temperature", "oxygen-saturation"]

/-- The numeric value of an observation (lines 191-195 and 209-213):
a truthy `value_quantity` requires its `"value"` key (else `KeyError`);
otherwise a present `value_integer` is used; otherwise there is no
value. -/
def obsNumericValue (o : StoredObs) : Except String (Option Rat) :=
  match o.value_quantity with
  | some vq =>
      if vq ≠ [] then
        match alookup "value" vq with
        | some v => .ok (some v)
        | none => .error "KeyError: value"
      else
        .ok (o.value_integer.map fun n => (n : Rat))
  | none => .ok (o.value_integer.map fun n => (n : Rat))

/-- Append a `{"value", "timestamp"}` entry under a type key, creating
the key with an empty list first when absent (lines 197-204);
`obs["timestamp"]` raises when the key is missing. -/
def appendSeries (m : List (String × List VEntry)) (k : String) (v : Rat)
    (ts : Option String) : Except String (List (String × List VEntry)) :=
  match ts with
  | none => .error "KeyError: timestamp"
  | some t =>
      match alookup k m with
      | some l => .ok (aset k (l ++ [⟨v, t⟩]) m)
      | none => .ok (m ++ [(k, [⟨v, t⟩])])

/-- Add an element to a list if not already present (lines 227-228). -/
def addUnique (l : List String) (x : String) : List String :=
  if x ∈ l then l else l ++ [x]

/-- The loop body of `extract_features` (lines 185-234): route one
observation by its `observation_type`. -/
def routeObs (f : Features) (o : StoredObs) : Except String Features :=
  let t := o.observation_type.getD "unknown"
  if t ∈ vitalSignTypes then
    match obsNumericValue o with
    | .error e => .error e
    | .ok none => .ok f
    | .ok (some v) =>
        match appendSeries f.vital_signs t v o.timestamp with
        | .error e => .error e
        | .ok vs => .ok { f with vital_signs := vs }
  else if pyStartsWith t "lab-" then
    match obsNumericValue o with
    | .error e => .error e
    | .ok none => .ok f
    | .ok (some v) =>
        match appendSeries f.lab_results t v o.timestamp with
        | .error e => .error e
        | .ok ls => .ok { f with lab_results := ls }
  else if pyStartsWith t "condition-" then
    .ok { f with conditions := addUnique f.conditions (pyReplace t "condition-" "") }
  else if pyStartsWith t "medication-" then
    .ok { f with medications := addUnique f.medications (pyReplace t "medication-" "") }
  else
    .ok f

/-- `extract_features` (lines 157-236): build the demographic skeleton,
then fold every observation through `routeObs`. -/
def extract_features (currentYear : Int) (patient : StoredPatient)
    (observations : List StoredObs) : Except String Features :=
  let init : Features :=
    { gender := patient.gender
      age := calculate_age currentYear (patient.birth_date.getD "")
      deceased := patient.deceased.getD false
      vital_signs := []
      lab_results := []
      medications := []
      conditions := [] }
  observations.foldlM routeObs init

/-! ## `src/core/ml/models/risk_predictor.py` — `RiskPredictor`

`feature_weights` and `thresholds` are the model configuration (loaded
from a file or from `_initialize_default_model`); they are passed as
explicit arguments.  A value stored under a vital-sign/lab series can be
a number or a nested dictionary, so values are a small sum type; a
comparison between a dictionary and a number raises `TypeError` in
Python, and a division by a zero threshold difference raises
`ZeroDivisionError`, so feature extraction and prediction are
`Except String _`. -/

/-- A value held in a timed series: a number, or a dictionary of numbers
(nested `{"value": ...}` wrappers and blood-pressure
`{"systolic","diastolic"}` payloads). -/
inductive RPVal where
  | num (q : Rat)
  | obj (m : List (String × Rat))
deriving DecidableEq, Repr

/-- One element of a timed series (`.get("timestamp", "")` and
`.get("value")` are both total). -/
structure RPEntry where
  timestamp : Option String
  value : Option RPVal
deriving DecidableEq, Repr

/-- The payload under one series key: a list of timed entries or a single
dictionary entry (anything else falls through to `None` in
`_get_latest_value`). -/
inductive RPSeries where
  | entries (l : List RPEntry)
  | single (e : RPEntry)
deriving DecidableEq, Repr

/-- The `demographics` payload of `RiskPredictor.predict`. -/
structure RPDemographics where
  age : Option Rat
  gender : Option String
deriving DecidableEq, Repr

/-- The `patient_data` payload of `RiskPredictor.predict`
(`patient_data.get(k, {})` makes a missing `demographics` key behave as
an empty dictionary, and missing series keys as empty dictionaries). -/
structure RPData where
  demographics : Option RPDemographics
  vital_signs : List (String × RPSeries)
  lab_results : List (String × RPSeries)
  conditions : List String
  medications : List String
deriving DecidableEq, Repr

/-- Lexicographic (code-point) comparison of two strings, modelling
Python string `<`. -/
def lexLtCh : List Char → List Char → Bool
  | [], [] => false
  | [], _ :: _ => true
  | _ :: _, [] => false
  | a :: as, b :: bs => if a = b then lexLtCh as bs else decide (a < b)

/-- Stable insertion into a list already sorted descending with respect
to the strict key order `lt`: `x` goes before the first element whose key
is strictly smaller, hence after any tie. -/
def insertDescBy {α : Type} (lt : α → α → Bool) (x : α) : List α → List α
  | [] => [x]
  | y :: ys => if lt y x then x :: y :: ys else y :: insertDescBy lt x ys

/-- Stable descending sort, modelling
`sorted(data, key=..., reverse=True)` (ties keep their original order). -/
def sortDescBy {α : Type} (lt : α → α → Bool) (l : List α) : List α :=
  l.foldl (fun acc x => insertDescBy lt x acc) []

/-- Unwrap a nested `{"value": ...}` dictionary (lines 250-252, 255-257). -/
def unwrapRPVal (v : Option RPVal) : Option RPVal :=
  match v with
  | some (.obj m) =>
      match alookup "value" m with
      | some q => some (.num q)
      | none => some (.obj m)
  | v => v

/-- `RiskPredictor._get_latest_value` (lines 232-259): falsy data gives
`None`; a list is sorted descending by its `"timestamp"` keys (missing
keys sort as `""`) and the head entry's value is unwrapped; a single
dictionary entry is unwrapped directly. -/
def getLatestValue (data : Option RPSeries) : Option RPVal :=
  match data with
  | none => none
  | some (.entries []) => none
  | some (.entries l) =>
      match sortDescBy (fun a b => lexLtCh (a.timestamp.getD "").data (b.timestamp.getD "").data) l with
      | [] => none
      | e :: _ => unwrapRPVal e.value
  | some (.single e) => unwrapRPVal e.value

/-- `1.0 if b else 0.0`. -/
def ind (b : Bool) : Rat :=
  if b then 1 else 0

/-- One "fetch latest value, then compare" block of
`RiskPredictor._extract_features`: a missing value skips the block, a
numeric value feeds the comparisons, and a dictionary value would be
compared against a number, which raises `TypeError` in Python. -/
def rpNumBlock (fs : List (String × Rat)) (data : Option RPSeries)
    (upd : Rat → List (String × Rat) → List (String × Rat)) :
    Except String (List (String × Rat)) :=
  match getLatestValue data with
  | none => .ok fs
  | some (.num q) => .ok (upd q fs)
  | some (.obj _) => .error "TypeError: comparison of dict and number"

/-- `RiskPredictor._extract_features` (lines 115-230), with the model's
`feature_weights` passed explicitly (it is consulted only for condition
and medication membership). -/
def rpExtractFeatures (weights : List (String × Rat)) (pd : RPData) :
    Except String (List (String × Rat)) := do
  let demo := pd.demographics.getD ⟨none, none⟩
  let fs : List (String × Rat) := []
  let fs := match demo.age with
    | some a => aset "age" (min (a / 100) 1) fs
    | none => fs
  let fs :=
    if demo.gender = some "male" then
      aset "gender_female" 0 (aset "gender_male" 1 fs)
    else if demo.gender = some "female" then
      aset "gender_female" 1 (aset "gender_male" 0 fs)
    else fs
  let fs ← rpNumBlock fs (alookup "heart-rate" pd.vital_signs) (fun q f =>
    aset "heart_rate_low" (ind (decide (q < 60)))
      (aset "heart_rate_high" (ind (decide (100 < q))) f))
  let fs :=
    match getLatestValue (alookup "blood-pressure" pd.vital_signs) with
    | some (.obj m) =>
        let f :=
          match alookup "systolic" m with
          | some s =>
              aset "blood_pressure_systolic_low" (ind (decide (s < 90)))
                (aset "blood_pressure_systolic_high" (ind (decide (140 < s))) fs)
          | none => fs
        match alookup "diastolic" m with
        | some d =>
            aset "blood_pressure_diastolic_low" (ind (decide (d < 60)))
              (aset "blood_pressure_diastolic_high" (ind (decide (90 < d))) f)
        | none => f
    | _ => fs
  let fs ← rpNumBlock fs (alookup "respiratory-rate" pd.vital_signs) (fun q f =>
    aset "respiratory_rate_low" (ind (decide (q < 12)))
      (aset "respiratory_rate_high" (ind (decide (20 < q))) f))
  let fs ← rpNumBlock fs (alookup "temperature" pd.vital_signs) (fun q f =>
    aset "temperature_low" (ind (decide (q < 36)))
      (aset "temperature_high" (ind (decide (38 < q))) f))
  let fs ← rpNumBlock fs (alookup "oxygen-saturation" pd.vital_signs) (fun q f =>
    aset "oxygen_saturation_low" (ind (decide (q < 95))) f)
  let fs ← rpNumBlock fs (alookup "lab-glucose" pd.lab_results) (fun q f =>
    aset "glucose_low" (ind (decide (q < 70)))
      (aset "glucose_high" (ind (decide (200 < q))) f))
  let fs ← rpNumBlock fs (alookup "lab-wbc" pd.lab_results) (fun q f =>
    aset "wbc_low" (ind (decide (q < 4)))
      (aset "wbc_high" (ind (decide (11 < q))) f))
  let fs ← rpNumBlock fs (alookup "lab-creatinine" pd.lab_results) (fun q f =>
    aset "creatinine_high" (ind (decide ((12 : Rat) / 10 < q))) f)
  let fs ← rpNumBlock fs (alookup "lab-bun" pd.lab_results) (fun q f =>
    aset "bun_high" (ind (decide (20 < q))) f)
  let fs ← rpNumBlock fs (alookup "lab-potassium" pd.lab_results) (fun q f =>
    aset "potassium_low" (ind (decide (q < (7 : Rat) / 2)))
      (aset "potassium_high" (ind (decide (5 < q))) f))
  let fs ← rpNumBlock fs (alookup "lab-sodium" pd.lab_results) (fun q f =>
    aset "sodium_low" (ind (decide (q < 135)))
      (aset "sodium_high" (ind (decide (145 < q))) f))
  let fs := pd.conditions.foldl
    (fun f c => if akey c weights then aset c 1 f else f) fs
  let fs := pd.medications.foldl
    (fun f m => if akey m weights then aset m 1 f else f) fs
  pure fs

/-- The `thresholds` configuration of `RiskPredictor`
(keys `low-risk`, `medium-risk`, `high-risk`). -/
structure RPThresholds where
  low_risk : Rat
  medium_risk : Rat
  high_risk : Rat
deriving DecidableEq, Repr

/-- One contributing factor of the prediction explanation. -/
structure RPFactor where
  name : String
  importance : Rat
  direction : String
deriving DecidableEq, Repr

/-- The dictionary returned by `RiskPredictor.predict`. -/
structure RPResult where
  prediction : String
  probability : Rat
  scores : List (String × Rat)
  factors : List RPFactor
  thresholds : RPThresholds
deriving DecidableEq, Repr

/-- `RiskPredictor.predict` (lines 261-323): weighted sum over the
extracted features, clamp to [0, 1], band by the `high-risk` and
`medium-risk` thresholds, per-band scores (whose divisions raise
`ZeroDivisionError` on a zero denominator), and the top five positive
contributing factors by descending weight. -/
def rpPredict (weights : List (String × Rat)) (thr : RPThresholds) (pd : RPData) :
    Except String RPResult :=
  match rpExtractFeatures weights pd with
  | .error e => .error e
  | .ok features =>
      let risk_score := features.foldl
        (fun acc kv =>
          match alookup kv.1 weights with
          | some w => acc + kv.2 * w
          | none => acc) 0
      let s := min (max risk_score 0) 1
      let risk_level :=
        if thr.high_risk ≤ s then "high-risk"
        else if thr.medium_risk ≤ s then "medium-risk"
        else "low-risk"
      if thr.medium_risk = 0 then .error "ZeroDivisionError"
      else if thr.high_risk - thr.low_risk = 0 then .error "ZeroDivisionError"
      else if 1 - thr.medium_risk = 0 then .error "ZeroDivisionError"
      else
        let scores :=
          [("low-risk", max 0 (1 - s / thr.medium_risk)),
           ("medium-risk", max 0 (min 1 ((s - thr.low_risk) / (thr.high_risk - thr.low_risk)))),
           ("high-risk", max 0 ((s - thr.medium_risk) / (1 - thr.medium_risk)))]
        let sortedW := sortDescBy (fun a b => decide (a.2 < b.2)) weights
        let factors := (sortedW.filter (fun kv =>
          match alookup kv.1 features with
          | some v => decide (0 < v)
          | none => false)).take 5
        .ok ⟨risk_level, s, scores, factors.map (fun kv => ⟨kv.1, kv.2, "positive"⟩), thr⟩

/-! ## Helper lemmas -/

/-- A map by a function that fixes every element of the list is the
identity. -/
theorem map_fix {α : Type} (f : α → α) :
    ∀ (l : List α), (∀ x ∈ l, f x = x) → l.map f = l := by
  intro l
  induction l with
  | nil => intro _; rfl
  | cons x xs ih =>
      intro h
      simp only [List.map_cons]
      rw [h x (by simp), ih (fun y hy => h y (by simp [hy]))]

/-- A list containing two different elements has at least two elements. -/
theorem two_mem_le_length {l : List String} {a b : String}
    (ha : a ∈ l) (hb : b ∈ l) (hab : a ≠ b) : 2 ≤ l.length := by
  match l with
  | [] => cases ha
  | [x] =>
      simp only [List.mem_singleton] at ha hb
      exact absurd (ha.trans hb.symm) hab
  | x :: y :: t =>
      simp only [List.length_cons]
      omega

/-- The value-presence message never comes from a per-coding check. -/
theorem valueMsg_notin_codingErrors (c : FCoding) :
    valuePresenceMsg ∉ obsCodingErrors c := by
  unfold obsCodingErrors
  split <;> split <;> simp [valuePresenceMsg]

/-- The value-presence message is produced by no other validator rule. -/
theorem valueMsg_only_from_value_rule (o : FHIRObservation) :
    valuePresenceMsg ∉ obsResourceTypeErrors o ∧
    valuePresenceMsg ∉ obsIdErrors o ∧
    valuePresenceMsg ∉ obsStatusErrors o ∧
    valuePresenceMsg ∉ obsCodeErrors o ∧
    valuePresenceMsg ∉ obsSubjectErrors o ∧
    valuePresenceMsg ∉ obsEffectiveErrors o := by
  refine ⟨?_, ?_, ?_, ?_, ?_, ?_⟩
  · unfold obsResourceTypeErrors
    split <;> simp [valuePresenceMsg]
  · unfold obsIdErrors
    split <;> simp [valuePresenceMsg]
  · unfold obsStatusErrors
    split
    · simp [valuePresenceMsg]
    · split <;> simp [valuePresenceMsg]
  · unfold obsCodeErrors
    rcases o.code with _ | c
    · simp [valuePresenceMsg]
    · rcases hc : c.coding with _ | (_ | ⟨x, xs⟩) <;> simp only [hc]
      · simp [valuePresenceMsg]
      · simp [valuePresenceMsg]
      · simp only [List.mem_flatMap, not_exists, not_and]
        intro cd _
        exact valueMsg_notin_codingErrors cd
  · unfold obsSubjectErrors
    rcases o.subject with _ | s
    · simp [valuePresenceMsg]
    · split
      · simp [valuePresenceMsg]
      · split <;> simp [valuePresenceMsg]
  · unfold obsEffectiveErrors
    split
    · simp [valuePresenceMsg]
    · split
      · split <;> simp [valuePresenceMsg]
      · simp

/-! ## Claim C1 — the value-presence rule of `validate_observation` -/

/-- An Observation satisfying every other rule whose only value content
is `valueBoolean = False`. -/
def obsBoolFalse : FHIRObservation :=
  { resource_type := "Observation", id := some "obs-1", status := some "final",
    code := some ⟨some [⟨some "http://loinc.org", some "8867-4", none⟩], none⟩,
    subject := some ⟨some "Patient/p1"⟩,
    effectiveDateTime := some "2024-01-02T03:04:05Z", effectivePeriod := none,
    valueQuantity := none, valueCodeableConcept := none, valueString := none,
    valueBoolean := some false, valueInteger := none, valueRange := none,
    valueRatio := none, valueSampledData := none, valueTime := none,
    valueDateTime := none, valuePeriod := none,
    dataAbsentReason := none, component := none }

/-- C1, counterexample: an Observation in which a value variant *is* set
(`valueBoolean = False`) and all other rules hold is nevertheless
rejected, with the value-presence violation as its only violation — the
claimed "passes validation" and the claimed "no value variant set" side
of the iff both fail, because the validator tests the eleven `value[x]`
fields for Python truthiness rather than presence. -/
theorem c1_counterexample :
    validate_observation obsBoolFalse = [valuePresenceMsg] := by decide

/-- All validator rules other than the value-presence rule pass. -/
def obsOtherRulesOk (o : FHIRObservation) : Prop :=
  obsResourceTypeErrors o = [] ∧ obsIdErrors o = [] ∧ obsStatusErrors o = [] ∧
  obsCodeErrors o = [] ∧ obsSubjectErrors o = [] ∧ obsEffectiveErrors o = []

instance (o : FHIRObservation) : Decidable (obsOtherRulesOk o) := by
  unfold obsOtherRulesOk
  infer_instance

/-- C1 (amended): the violations of `validate_observation` include the
value-presence violation if and only if every `value[x]` field is falsy
(absent — or `False`, `0`, `""`), `dataAbsentReason` is absent and the
component list is absent or empty; and an Observation satisfying all
other rules with a truthy value, a data-absent reason or a non-empty
component list passes validation. -/
theorem c1_value_presence_rule (o : FHIRObservation) :
    (valuePresenceMsg ∈ validate_observation o ↔
      (obsHasValue o = false ∧ o.dataAbsentReason = none ∧ o.component.getD [] = [])) ∧
    (obsOtherRulesOk o →
      (obsHasValue o = true ∨ o.dataAbsentReason.isSome ∨ o.component.getD [] ≠ []) →
      validate_observation o = []) := by
  obtain ⟨h1, h2, h3, h4, h5, h6⟩ := valueMsg_only_from_value_rule o
  constructor
  · unfold validate_observation
    simp only [List.mem_append]
    constructor
    · intro h
      rcases h with ((((((h | h) | h) | h) | h) | h) | h) <;>
        first
        | exact absurd h (by assumption)
        | (unfold obsValueErrors at h
           revert h
           split
           · intro _
             refine ⟨?_, ?_, ?_⟩ <;> simp_all [Option.isNone_iff_eq_none]
           · intro h
             cases h)
    · rintro ⟨hv, hd, hc⟩
      right
      unfold obsValueErrors
      rw [if_pos ⟨by simp [hv], by simp [hd], hc⟩]
      simp
  · rintro ⟨r1, r2, r3, r4, r5, r6⟩ hpresent
    unfold validate_observation
    rw [r1, r2, r3, r4, r5, r6]
    unfold obsValueErrors
    rw [if_neg]
    · simp
    · rintro ⟨hv, hd, hc⟩
      rcases hpresent with h | h | h
      · simp [h] at hv
      · simp [Option.isNone_iff_eq_none] at hd
        simp [hd] at h
      · exact h hc

/-- The observation of `obsBoolFalse` with its boolean value `True`. -/
def obsBoolTrue : FHIRObservation :=
  { obsBoolFalse with valueBoolean := some true }

/-- C1, witness: the amended theorem applied at a concrete Observation
satisfying all other rules whose truthy `valueBoolean = True` makes
validation pass. -/
theorem c1_witness : validate_observation obsBoolTrue = [] :=
  (c1_value_presence_rule obsBoolTrue).2 (by decide) (by decide)

/-! ## Claim C7 — the validator aggregates violations -/

/-- C7: `validate_observation` aggregates all failures into one list:
whenever the status is missing (falsy) and the first coding of a present
code lacks a system, the single raised violations list contains both the
status violation and the coding-system violation, hence at least two
entries. -/
theorem c7_validator_aggregates (o : FHIRObservation) (c : FCC) (cd : FCoding)
    (l : List FCoding)
    (hstat : truthyStr o.status = false)
    (hcode : o.code = some c)
    (hcoding : c.coding = some (cd :: l))
    (hsys : truthyStr cd.system = false) :
    "Observation status is required" ∈ validate_observation o ∧
    "Observation code coding must have a system" ∈ validate_observation o ∧
    2 ≤ (validate_observation o).length := by
  have hs : "Observation status is required" ∈ validate_observation o := by
    unfold validate_observation
    simp only [List.mem_append]
    left; left; left; left; right
    unfold obsStatusErrors
    rw [if_pos (by simp [hstat])]
    simp
  have hc : "Observation code coding must have a system" ∈ validate_observation o := by
    unfold validate_observation
    simp only [List.mem_append]
    left; left; left; right
    unfold obsCodeErrors
    rw [hcode]
    simp only [hcoding]
    refine List.mem_flatMap.mpr ⟨cd, by simp, ?_⟩
    unfold obsCodingErrors
    rw [if_pos (by simp [hsys])]
    simp
  exact ⟨hs, hc, two_mem_le_length hs hc (by decide)⟩

/-- The Observation of `obsBoolFalse` with its status removed and the
system stripped from its first coding. -/
def obsTwoViolations : FHIRObservation :=
  { obsBoolFalse with
    status := none,
    code := some ⟨some [⟨none, some "8867-4", none⟩], none⟩,
    valueBoolean := some true }

/-- C7, witness: the aggregation theorem applied at a concrete
Observation missing both its status and its first coding's system. -/
theorem c7_witness :
    "Observation status is required" ∈ validate_observation obsTwoViolations ∧
    "Observation code coding must have a system" ∈ validate_observation obsTwoViolations ∧
    2 ≤ (validate_observation obsTwoViolations).length :=
  c7_validator_aggregates obsTwoViolations ⟨some [⟨none, some "8867-4", none⟩], none⟩
    ⟨none, some "8867-4", none⟩ [] (by decide) (by decide) (by decide) (by decide)

/-- `mkObservation` only ever returns its argument. -/
theorem mkObservation_ok {o o' : Observation} (h : mkObservation o = .ok o') : o' = o := by
  unfold mkObservation at h
  revert h
  split
  · intro h; cases h
  · split
    · intro h; cases h
    · intro h
      injection h with h'
      exact h'.symm

/-- `mkPatient` only ever returns its argument. -/
theorem mkPatient_ok {p p' : Patient} (h : mkPatient p = .ok p') : p' = p := by
  unfold mkPatient at h
  revert h
  split
  · intro h; cases h
  · split
    · intro h; cases h
    · intro h
      injection h with h'
      exact h'.symm

/-! ## Claim C3 — first-match value resolution in `Observation.from_fhir` -/

/-- C3: decoding resolves the `value[x]` keys to exactly one variant by
first-match key presence with priority Quantity > String > Boolean >
Integer > CodeableConcept — a present key wins over all later ones
(with `False` and `0` preserved), and with no `value*` key present all
five decoded fields are `None`; the decoded Observation carries exactly
the fields of `resolveValue`. -/
theorem c3_value_resolution (r : RawObservation) :
    (∀ fresh now o', Observation.from_fhir r fresh now = .ok o' →
       o'.value_quantity = (resolveValue r).value_quantity ∧
       o'.value_string = (resolveValue r).value_string ∧
       o'.value_boolean = (resolveValue r).value_boolean ∧
       o'.value_integer = (resolveValue r).value_integer ∧
       o'.value_codeable_concept = (resolveValue r).value_codeable_concept) ∧
    (∀ q, r.valueQuantity = some q →
       resolveValue r = ⟨some (decQuantity q), none, none, none, none⟩) ∧
    (r.valueQuantity = none → ∀ s, r.valueString = some s →
       resolveValue r = ⟨none, some s, none, none, none⟩) ∧
    (r.valueQuantity = none → r.valueString = none → ∀ b, r.valueBoolean = some b →
       resolveValue r = ⟨none, none, some b, none, none⟩) ∧
    (r.valueQuantity = none → r.valueString = none → r.valueBoolean = none →
       ∀ n, r.valueInteger = some n →
       resolveValue r = ⟨none, none, none, some n, none⟩) ∧
    (r.valueQuantity = none → r.valueString = none → r.valueBoolean = none →
       r.valueInteger = none → ∀ c, r.valueCodeableConcept = some c →
       resolveValue r = ⟨none, none, none, none, some (decCC c)⟩) ∧
    (r.valueQuantity = none → r.valueString = none → r.valueBoolean = none →
       r.valueInteger = none → r.valueCodeableConcept = none →
       resolveValue r = ⟨none, none, none, none, none⟩) := by
  refine ⟨?_, ?_, ?_, ?_, ?_, ?_, ?_⟩
  · intro fresh now o' h
    unfold Observation.from_fhir at h
    rw [mkObservation_ok h]
    simp
  · intro q hq
    simp [resolveValue, hq]
  · intro h1 s hs
    simp [resolveValue, h1, hs]
  · intro h1 h2 b hb
    simp [resolveValue, h1, h2, hb]
  · intro h1 h2 h3 n hn
    simp [resolveValue, h1, h2, h3, hn]
  · intro h1 h2 h3 h4 c hc
    simp [resolveValue, h1, h2, h3, h4, hc]
  · intro h1 h2 h3 h4 h5
    simp [resolveValue, h1, h2, h3, h4, h5]

/-- A raw Observation whose only value keys are `valueBoolean = False`
and `valueInteger = 0`. -/
def rawBoolFalseObs : RawObservation :=
  { id := some "o1", meta := none, status := some "final", category := [],
    code := some ⟨some [[("code", "screening-negative")]], none⟩,
    subject := [("reference", "Patient/p1")], encounter := none,
    effectiveDateTime := some "2024-01-02T03:04:05", issued := none,
    performer := none, valueQuantity := none, valueString := none,
    valueBoolean := some false, valueInteger := some 0,
    valueCodeableConcept := none, dataAbsentReason := none,
    interpretation := [], note := none, bodySite := none, method := none,
    specimen := none, device := none, referenceRange := none,
    hasMember := none, derivedFrom := none, component := [] }

/-- C3, witness: with `valueQuantity`/`valueString` absent and both
`valueBoolean = False` and `valueInteger = 0` present, the Boolean
variant wins and `False` is preserved as a present value. -/
theorem c3_witness :
    resolveValue rawBoolFalseObs = ⟨none, none, some false, none, none⟩ :=
  (c3_value_resolution rawBoolFalseObs).2.2.2.1 rfl rfl false rfl

/-! ## Claim C5 — `deceasedDateTime` precedence in `Patient.from_fhir` -/

/-- C5: a present `deceasedDateTime` forces `deceased = True` and sets
`deceased_date`, regardless of any `deceasedBoolean` value. -/
theorem c5_deceased_precedence (r : RawPatient) (d fresh now : String) (p : Patient)
    (hd : r.deceasedDateTime = some d)
    (h : Patient.from_fhir r fresh now = .ok p) :
    p.deceased = true ∧ p.deceased_date = some d := by
  unfold Patient.from_fhir at h
  rw [mkPatient_ok h]
  simp [decodeDeceased, hd]

/-- A raw Patient carrying both `deceasedBoolean = False` and
`deceasedDateTime = "2020-01-01"`. -/
def rawDeceasedConflict : RawPatient :=
  { id := some "p1", meta := none, active := none,
    identifier := [⟨some "http://hospital.org/mrn", some "MRN123", none, none⟩],
    name := [⟨some "Doe", some ["Jane"], none, none, none⟩],
    gender := none, birthDate := some "1970-06-15",
    deceasedBoolean := some false, deceasedDateTime := some "2020-01-01",
    address := [], telecom := [], maritalStatus := none,
    communication := none, extension := none }

/-- The Patient decoded from `rawDeceasedConflict`. -/
def patDeceasedConflict : Patient :=
  { patient_id := "p1", version := "n", active := true,
    identifiers := [⟨"http://hospital.org/mrn", "MRN123", none, none⟩],
    name := [⟨"Doe", ["Jane"], none, none, "official"⟩],
    gender := "unknown", birth_date := "1970-06-15",
    deceased := true, deceased_date := some "2020-01-01",
    address := none, telecom := none, marital_status := none,
    communication := none, extension := none,
    created_at := "n", updated_at := "n" }

/-- C5, witness: the precedence theorem applied at the concrete conflict
input. -/
theorem c5_witness :
    patDeceasedConflict.deceased = true ∧
    patDeceasedConflict.deceased_date = some "2020-01-01" :=
  c5_deceased_precedence rawDeceasedConflict "2020-01-01" "f" "n"
    patDeceasedConflict rfl (by decide)

/-! ## Claim C4 — decoder defaults in `Patient.from_fhir` -/

/-- The raw Patient of `rawDeceasedConflict` without its `birthDate` and
`deceasedDateTime` keys. -/
def rawNoBirthDate : RawPatient :=
  { rawDeceasedConflict with birthDate := none, deceasedDateTime := none }

/-- C4, counterexample: on a well-formed raw object with no `birthDate`
key the decoder does *not* return a Patient — the substituted empty
string fails the model's `birth_date` format validator, so `from_fhir`
raises at construction instead of leaving rejection to the downstream
validator. -/
theorem c4_counterexample :
    Patient.from_fhir rawNoBirthDate "f" "n" =
      .error "birth_date must be in YYYY-MM-DD format" := by decide

/-- C4 (amended): the decoder substitutes documented defaults (missing
`gender` becomes `"unknown"`, missing `birthDate` becomes the empty
string) and returns a Patient whenever the (possibly defaulted)
`birth_date` parses and the decoded `deceased_date` passes its validator;
when `birthDate` is missing, the empty-string default fails the model's
birth-date validator and the decoder raises instead of returning. -/
theorem c4_decoder_defaults (r : RawPatient) (fresh now : String)
    (hb : isYMD (r.birthDate.getD "") = true)
    (hd : deceasedDateError (r.birthDate.getD "") (decodeDeceased r).2 = none) :
    ∃ p, Patient.from_fhir r fresh now = .ok p ∧
      p.gender = r.gender.getD "unknown" ∧
      p.birth_date = r.birthDate.getD "" := by
  have h1 : birthDateError (r.birthDate.getD "") = none := by
    unfold birthDateError
    rw [if_pos hb]
  unfold Patient.from_fhir mkPatient
  simp only [h1, hd]
  exact ⟨_, rfl, rfl, rfl⟩

/-- C4, witness: the amended theorem applied at a raw Patient with a
valid `birthDate` and no `gender` key. -/
theorem c4_witness :
    ∃ p, Patient.from_fhir rawDeceasedConflict "f" "n" = .ok p ∧
      p.gender = (rawDeceasedConflict.gender).getD "unknown" ∧
      p.birth_date = (rawDeceasedConflict.birthDate).getD "" :=
  c4_decoder_defaults rawDeceasedConflict "f" "n" (by decide) (by decide)

/-! ## Claim C6 — deceased encoding in `Patient.to_fhir` -/

/-- A deceased Patient with a date of death. -/
def patDeceasedWithDate : Patient :=
  { patient_id := "p2", version := "v", active := true,
    identifiers := [⟨"sys", "id", none, none⟩],
    name := [⟨"Roe", ["Sam"], none, none, "official"⟩],
    gender := "male", birth_date := "1950-01-01",
    deceased := true, deceased_date := some "2020-01-02",
    address := none, telecom := none, marital_status := none,
    communication := none, extension := none,
    created_at := "c", updated_at := "u" }

/-- C6, counterexample: when `deceased_date` is set the encoder emits
`deceasedDateTime` *in addition to* `deceasedBoolean`, not instead of it —
both keys appear on the wire, so they are not mutually exclusive. -/
theorem c6_counterexample :
    (patDeceasedWithDate.to_fhir).deceasedBoolean.isSome = true ∧
    (patDeceasedWithDate.to_fhir).deceasedDateTime.isSome = true := by decide

/-- C6 (amended): encoding always emits the `deceased` flag as
`deceasedBoolean` (the `None`-filter never removes a boolean), and emits
`deceasedDateTime` exactly when `deceased_date` is set; when it is set,
both keys appear in the encoded Patient. -/
theorem c6_deceased_encoding (p : Patient) :
    (p.to_fhir).deceasedBoolean = some p.deceased ∧
    (p.to_fhir).deceasedDateTime = p.deceased_date := by
  constructor <;> rfl

/-! ## Claim C8 — feature routing in `extract_features` -/

/-- C8, counterexample: routing strips *every* occurrence of the
substring `condition-` (Python `str.replace`), not just the leading
prefix: `observation_type = "condition-condition-x"` contributes `"x"`
to `conditions`, where prefix-stripping would contribute
`"condition-x"`. -/
theorem c8_counterexample :
    (extract_features 2024 ⟨none, none, none⟩
        [⟨some "condition-condition-x", none, none, none⟩]).map Features.conditions
      = .ok ["x"] ∧
    (extract_features 2024 ⟨none, none, none⟩
        [⟨some "condition-condition-x", none, none, none⟩]).map Features.conditions
      ≠ .ok ["condition-x"] := by decide

/-- C8 (amended): each observation is routed solely by its
`observation_type`: a type in the vital-sign set touches only
`vital_signs`; otherwise a `lab-`-prefixed type touches only
`lab_results`; otherwise a `condition-`-prefixed type adds the type with
every occurrence of `condition-` removed (equal to prefix-stripping
whenever the remainder does not itself contain `condition-`) to
`conditions`; otherwise a `medication-`-prefixed type does the same for
`medications`; any other type contributes to no bucket.  In particular
`"condition-diabetes"` contributes `"diabetes"` to `conditions` and
leaves `lab_results` untouched. -/
theorem c8_feature_routing :
    (∀ (f : Features) (o : StoredObs),
      ((o.observation_type.getD "unknown") ∈ vitalSignTypes →
        ∀ f', routeObs f o = .ok f' →
          f'.lab_results = f.lab_results ∧ f'.conditions = f.conditions ∧
          f'.medications = f.medications) ∧
      ((o.observation_type.getD "unknown") ∉ vitalSignTypes →
        pyStartsWith (o.observation_type.getD "unknown") "lab-" = true →
        ∀ f', routeObs f o = .ok f' →
          f'.vital_signs = f.vital_signs ∧ f'.conditions = f.conditions ∧
          f'.medications = f.medications) ∧
      ((o.observation_type.getD "unknown") ∉ vitalSignTypes →
        pyStartsWith (o.observation_type.getD "unknown") "lab-" = false →
        pyStartsWith (o.observation_type.getD "unknown") "condition-" = true →
        routeObs f o =
          .ok { f with conditions := addUnique f.conditions (pyReplace (o.observation_type.getD "unknown") "condition-" "") }) ∧
      ((o.observation_type.getD "unknown") ∉ vitalSignTypes →
        pyStartsWith (o.observation_type.getD "unknown") "lab-" = false →
        pyStartsWith (o.observation_type.getD "unknown") "condition-" = false →
        pyStartsWith (o.observation_type.getD "unknown") "medication-" = true →
        routeObs f o =
          .ok { f with medications := addUnique f.medications (pyReplace (o.observation_type.getD "unknown") "medication-" "") }) ∧
      ((o.observation_type.getD "unknown") ∉ vitalSignTypes →
        pyStartsWith (o.observation_type.getD "unknown") "lab-" = false →
        pyStartsWith (o.observation_type.getD "unknown") "condition-" = false →
        pyStartsWith (o.observation_type.getD "unknown") "medication-" = false →
        routeObs f o = .ok f)) ∧
    (∀ (f f' : Features),
      routeObs f ⟨some "condition-diabetes", none, none, none⟩ = .ok f' →
      f'.conditions = addUnique f.conditions "diabetes" ∧
      f'.lab_results = f.lab_results) := by
  constructor
  · intro f o
    refine ⟨?_, ?_, ?_, ?_, ?_⟩
    · intro hv f' h
      unfold routeObs at h
      rw [if_pos hv] at h
      revert h
      split
      · intro h; cases h
      · intro h
        injection h with h'
        subst h'
        exact ⟨rfl, rfl, rfl⟩
      · split
        · intro h; cases h
        · intro h
          injection h with h'
          subst h'
          exact ⟨rfl, rfl, rfl⟩
    · intro hv hlab f' h
      unfold routeObs at h
      rw [if_neg hv, if_pos hlab] at h
      revert h
      split
      · intro h; cases h
      · intro h
        injection h with h'
        subst h'
        exact ⟨rfl, rfl, rfl⟩
      · split
        · intro h; cases h
        · intro h
          injection h with h'
          subst h'
          exact ⟨rfl, rfl, rfl⟩
    · intro hv hlab hcond
      unfold routeObs
      rw [if_neg hv, if_neg (by simp [hlab]), if_pos hcond]
    · intro hv hlab hcond hmed
      unfold routeObs
      rw [if_neg hv, if_neg (by simp [hlab]), if_neg (by simp [hcond]), if_pos hmed]
    · intro hv hlab hcond hmed
      unfold routeObs
      rw [if_neg hv, if_neg (by simp [hlab]), if_neg (by simp [hcond]),
          if_neg (by simp [hmed])]
  · intro f f' h
    unfold routeObs at h
    rw [if_neg (by decide), if_neg (by decide), if_pos (by decide)] at h
    injection h with h'
    subst h'
    constructor
    · show addUnique f.conditions (pyReplace "condition-diabetes" "condition-" "") =
        addUnique f.conditions "diabetes"
      rfl
    · rfl

/-- C8, witness: the routing theorem applied at the empty feature set and
a concrete `condition-diabetes` observation. -/
theorem c8_witness :
    (⟨none, none, false, [], [], [], ["diabetes"]⟩ : Features).conditions =
      addUnique (⟨none, none, false, [], [], [], []⟩ : Features).conditions "diabetes" ∧
    (⟨none, none, false, [], [], [], ["diabetes"]⟩ : Features).lab_results =
      (⟨none, none, false, [], [], [], []⟩ : Features).lab_results :=
  c8_feature_routing.2 ⟨none, none, false, [], [], [], []⟩
    ⟨none, none, false, [], [], [], ["diabetes"]⟩ (by decide)

/-! ## Claim C9 — graceful degradation of `extract_features` -/

/-- C9, counterexample: an observation carrying a numeric value but no
`timestamp` key makes `extract_features` raise (`obs["timestamp"]` is a
plain subscript), so the error branch is reachable. -/
theorem c9_counterexample :
    extract_features 2024 ⟨none, none, none⟩
        [⟨some "heart-rate", none, some 5, none⟩]
      = .error "KeyError: timestamp" := by decide

/-- An observation never trips the two `KeyError` sites of the extractor
loop: when its type is routed to the vital-sign or lab branch, any
non-empty `value_quantity` dictionary has a `"value"` key, and a
`timestamp` key is present whenever a numeric value is produced. -/
def safeObs (o : StoredObs) : Bool :=
  if (o.observation_type.getD "unknown") ∈ vitalSignTypes ∨
     pyStartsWith (o.observation_type.getD "unknown") "lab-" = true then
    (match o.value_quantity with
     | some vq => vq.isEmpty || (alookup "value" vq).isSome
     | none => true) &&
    (match obsNumericValue o with
     | .ok (some _) => o.timestamp.isSome
     | _ => true)
  else true

/-- On a safe vital/lab observation the numeric value either is absent or
comes with a timestamp. -/
theorem safe_obs_cases (o : StoredObs) (hs : safeObs o = true)
    (ht : (o.observation_type.getD "unknown") ∈ vitalSignTypes ∨
      pyStartsWith (o.observation_type.getD "unknown") "lab-" = true) :
    obsNumericValue o = .ok none ∨
    (∃ v ts, obsNumericValue o = .ok (some v) ∧ o.timestamp = some ts) := by
  unfold safeObs at hs
  rw [if_pos ht] at hs
  obtain ⟨hvq, hts⟩ := Bool.and_eq_true_iff.mp hs
  rcases hnv : obsNumericValue o with e | (_ | v)
  · exfalso
    unfold obsNumericValue at hnv
    rcases hq : o.value_quantity with _ | vq
    · rw [hq] at hnv
      cases hnv
    · rw [hq] at hnv hvq
      dsimp only at hnv hvq
      by_cases hne : vq ≠ []
      · rw [if_pos hne] at hnv
        rcases hlook : alookup "value" vq with _ | v'
        · rw [Bool.or_eq_true_iff, hlook] at hvq
          rcases hvq with h | h
          · exact absurd (List.isEmpty_iff.mp h) hne
          · simp at h
        · rw [hlook] at hnv
          cases hnv
      · rw [if_neg hne] at hnv
        cases hnv
  · exact Or.inl rfl
  · rw [hnv] at hts
    rcases ho : o.timestamp with _ | ts
    · rw [ho] at hts; cases hts
    · exact Or.inr ⟨v, ts, rfl, rfl⟩

/-- `appendSeries` succeeds on a present timestamp. -/
theorem appendSeries_ok (m : List (String × List VEntry)) (k : String) (v : Rat)
    (ts : String) : ∃ m', appendSeries m k v (some ts) = .ok m' := by
  unfold appendSeries
  rcases alookup k m with _ | l
  · exact ⟨_, rfl⟩
  · exact ⟨_, rfl⟩

/-- `routeObs` cannot fail on a safe observation. -/
theorem routeObs_ok_of_safe (o : StoredObs) (hs : safeObs o = true) (f : Features) :
    ∃ f', routeObs f o = .ok f' := by
  by_cases hv : (o.observation_type.getD "unknown") ∈ vitalSignTypes
  · rcases safe_obs_cases o hs (Or.inl hv) with hnv | ⟨v, ts, hnv, hts⟩
    · exact ⟨f, by simp [routeObs, hv, hnv]⟩
    · obtain ⟨m', hm'⟩ := appendSeries_ok f.vital_signs
        (o.observation_type.getD "unknown") v ts
      refine ⟨{ f with vital_signs := m' }, ?_⟩
      rw [← hts] at hm'
      simp [routeObs, hv, hnv, hm']
  · by_cases hlab : pyStartsWith (o.observation_type.getD "unknown") "lab-" = true
    · rcases safe_obs_cases o hs (Or.inr hlab) with hnv | ⟨v, ts, hnv, hts⟩
      · exact ⟨f, by simp [routeObs, hv, hlab, hnv]⟩
      · obtain ⟨m', hm'⟩ := appendSeries_ok f.lab_results
          (o.observation_type.getD "unknown") v ts
        refine ⟨{ f with lab_results := m' }, ?_⟩
        rw [← hts] at hm'
        simp [routeObs, hv, hlab, hnv, hm']
    · by_cases hcond : pyStartsWith (o.observation_type.getD "unknown") "condition-" = true
      · exact ⟨{ f with conditions := addUnique f.conditions (pyReplace (o.observation_type.getD "unknown") "condition-" "") },
          by simp [routeObs, hv, hlab, hcond]⟩
      · by_cases hmed : pyStartsWith (o.observation_type.getD "unknown") "medication-" = true
        · exact ⟨{ f with medications := addUnique f.medications (pyReplace (o.observation_type.getD "unknown") "medication-" "") },
            by simp [routeObs, hv, hlab, hcond, hmed]⟩
        · exact ⟨f, by simp [routeObs, hv, hlab, hcond, hmed]⟩

/-- The fold of `routeObs` succeeds when every observation is safe. -/
theorem foldl_routeObs_ok (obs : List StoredObs) :
    ∀ (f : Features), (∀ o ∈ obs, safeObs o = true) →
      ∃ f', obs.foldlM routeObs f = .ok f' := by
  induction obs with
  | nil => intro f _; exact ⟨f, rfl⟩
  | cons o os ih =>
      intro f h
      obtain ⟨f', hf'⟩ := routeObs_ok_of_safe o (h o (by simp)) f
      obtain ⟨f'', hf''⟩ := ih f' (fun x hx => h x (by simp [hx]))
      refine ⟨f'', ?_⟩
      rw [List.foldlM_cons, hf']
      exact hf''

/-- C9 (amended): `extract_features` tolerates missing patient fields
(`birth_date`, `gender`, `deceased`), unparseable birth dates,
observations with no value payload and unrecognised types, and returns a
feature set for every observation list whose vital/lab observations
carry a timestamp whenever they contribute a numeric value and whose
non-empty `value_quantity` dictionaries have a `"value"` key; an
observation violating that proviso makes it raise `KeyError`, so the
error branch is reachable. -/
theorem c9_graceful_extraction (currentYear : Int) (p : StoredPatient)
    (obs : List StoredObs) (h : ∀ o ∈ obs, safeObs o = true) :
    ∃ f, extract_features currentYear p obs = .ok f := by
  unfold extract_features
  exact foldl_routeObs_ok obs _ h

/-- C9, witness: the amended theorem applied at a patient with no fields
at all and observations missing values, types and timestamps. -/
theorem c9_witness :
    ∃ f, extract_features 2024 ⟨none, none, none⟩
        [⟨some "heart-rate", none, none, none⟩,
         ⟨some "condition-diabetes", none, none, none⟩,
         ⟨none, none, some 3, none⟩]
      = .ok f :=
  c9_graceful_extraction 2024 ⟨none, none, none⟩
    [⟨some "heart-rate", none, none, none⟩,
     ⟨some "condition-diabetes", none, none, none⟩,
     ⟨none, none, some 3, none⟩] (by decide)

/-! ## Claim C10 — risk banding in `RiskPredictor.predict` -/

/-- C10: the returned label is determined only by the `medium-risk` and
`high-risk` thresholds applied to the clamped score (which `predict`
also returns as `probability`): `high-risk` iff the score reaches the
high threshold, `medium-risk` iff it reaches the medium threshold but
not the high one, `low-risk` otherwise; the configured `low-risk`
threshold never influences the label. -/
theorem c10_risk_banding :
    (∀ (w : List (String × Rat)) (thr : RPThresholds) (pd : RPData) (r : RPResult),
      rpPredict w thr pd = .ok r →
      ((r.prediction = "high-risk" ↔ thr.high_risk ≤ r.probability) ∧
       (r.prediction = "medium-risk" ↔
         (thr.medium_risk ≤ r.probability ∧ r.probability < thr.high_risk)) ∧
       (r.prediction = "low-risk" ↔
         (r.probability < thr.medium_risk ∧ r.probability < thr.high_risk)))) ∧
    (∀ (w : List (String × Rat)) (thr thr' : RPThresholds) (pd : RPData)
       (r r' : RPResult),
      thr.medium_risk = thr'.medium_risk → thr.high_risk = thr'.high_risk →
      rpPredict w thr pd = .ok r → rpPredict w thr' pd = .ok r' →
      r.prediction = r'.prediction) := by
  have key : ∀ (w : List (String × Rat)) (thr : RPThresholds) (pd : RPData)
      (r : RPResult), rpPredict w thr pd = .ok r →
      ∃ fs, rpExtractFeatures w pd = .ok fs ∧
        r.probability = min (max (fs.foldl
          (fun acc kv =>
            match alookup kv.1 w with
            | some wt => acc + kv.2 * wt
            | none => acc) 0) 0) 1 ∧
        r.prediction =
          (if thr.high_risk ≤ r.probability then "high-risk"
           else if thr.medium_risk ≤ r.probability then "medium-risk"
           else "low-risk") := by
    intro w thr pd r h
    unfold rpPredict at h
    rcases hfs : rpExtractFeatures w pd with e | fs
    · rw [hfs] at h
      cases h
    · rw [hfs] at h
      dsimp only at h
      revert h
      split
      · intro h; cases h
      · split
        · intro h; cases h
        · split
          · intro h; cases h
          · intro h
            injection h with h'
            subst h'
            exact ⟨fs, rfl, rfl, rfl⟩
  constructor
  · intro w thr pd r h
    obtain ⟨fs, _, hp, hl⟩ := key w thr pd r h
    by_cases hH : thr.high_risk ≤ r.probability
    · rw [hl, if_pos hH]
      refine ⟨by simp [hH], ?_, ?_⟩
      · constructor
        · intro hc; exact absurd hc (by decide)
        · rintro ⟨_, hlt⟩
          exact absurd hH (not_le.mpr hlt)
      · constructor
        · intro hc; exact absurd hc (by decide)
        · rintro ⟨_, hlt⟩
          exact absurd hH (not_le.mpr hlt)
    · by_cases hM : thr.medium_risk ≤ r.probability
      · rw [hl, if_neg hH, if_pos hM]
        refine ⟨?_, by simp [hM, not_le.mp hH], ?_⟩
        · constructor
          · intro hc; exact absurd hc (by decide)
          · intro hge; exact absurd hge hH
        · constructor
          · intro hc; exact absurd hc (by decide)
          · rintro ⟨hlt, _⟩
            exact absurd hM (not_le.mpr hlt)
      · rw [hl, if_neg hH, if_neg hM]
        refine ⟨?_, ?_, by simp [not_le.mp hM, not_le.mp hH]⟩
        · constructor
          · intro hc; exact absurd hc (by decide)
          · intro hge; exact absurd hge hH
        · constructor
          · intro hc; exact absurd hc (by decide)
          · rintro ⟨hge, _⟩
            exact absurd hge hM
  · intro w thr thr' pd r r' hmed hhigh h h'
    obtain ⟨fs, hfs, hp, hl⟩ := key w thr pd r h
    obtain ⟨fs', hfs', hp', hl'⟩ := key w thr' pd r' h'
    rw [hfs] at hfs'
    injection hfs' with he
    subst he
    rw [hl, hl', hp, hp', hmed, hhigh]

/-- A feature payload whose only demographic signal is an age of 92. -/
def pdOldAge : RPData :=
  ⟨some ⟨some 92, none⟩, [], [], [], []⟩

/-- The result of `rpPredict [("age", 1)] ⟨3/10, 6/10, 8/10⟩ pdOldAge`. -/
def rOldAge : RPResult :=
  ⟨"high-risk", (23 : Rat)/25,
   [("low-risk", 0), ("medium-risk", 1), ("high-risk", (4 : Rat)/5)],
   [⟨"age", 1, "positive"⟩], ⟨(3 : Rat)/10, (3 : Rat)/5, (4 : Rat)/5⟩⟩

/-- C10, witness: the banding theorem applied at a concrete payload
(age 92, weight 1) whose clamped score 0.92 reaches the 0.8 high-risk
threshold. -/
theorem c10_witness :
    (rOldAge.prediction = "high-risk" ↔ (4 : Rat)/5 ≤ rOldAge.probability) ∧
    (rOldAge.prediction = "medium-risk" ↔
      ((3 : Rat)/5 ≤ rOldAge.probability ∧ rOldAge.probability < (4 : Rat)/5)) ∧
    (rOldAge.prediction = "low-risk" ↔
      (rOldAge.probability < (3 : Rat)/5 ∧ rOldAge.probability < (4 : Rat)/5)) :=
  c10_risk_banding.1 [("age", 1)] ⟨(3 : Rat)/10, (3 : Rat)/5, (4 : Rat)/5⟩
    pdOldAge rOldAge (by decide)

/-! ## Claim C2 — codec round trip -/

/-- `mkPatient` succeeds when both validators pass. -/
theorem mkPatient_eval (p : Patient)
    (h1 : birthDateError p.birth_date = none)
    (h2 : deceasedDateError p.birth_date p.deceased_date = none) :
    mkPatient p = .ok p := by
  unfold mkPatient
  rw [h1, h2]

/-- `mkObservation` succeeds when both validators pass. -/
theorem mkObservation_eval (o : Observation)
    (h1 : obsStatusFieldError o.status = none)
    (h2 : obsEffectiveFieldError o.effective_date_time = none) :
    mkObservation o = .ok o := by
  unfold mkObservation
  rw [h1, h2]

/-- Identifiers with a non-empty-string `type` survive the codec. -/
theorem decIdentifier_encIdentifier (i : Identifier) (h : i.type ≠ some "") :
    decIdentifier (encIdentifier i) = i := by
  rcases i with ⟨s, v, t, u⟩
  rcases t with _ | t
  · rfl
  · have ht : t ≠ "" := fun he => h (by rw [he])
    simp [decIdentifier, encIdentifier, truthyStr, ht, alookup]

/-- Names survive the codec. -/
theorem decName_encName (n : HumanName) : decName (encName n) = n := rfl

/-- Addresses survive the codec. -/
theorem decAddress_encAddress (a : Address) : decAddress (encAddress a) = a := rfl

/-- Contact points survive the codec. -/
theorem decTelecom_encTelecom (t : ContactPoint) : decTelecom (encTelecom t) = t := rfl

/-- Codeable concepts survive the codec. -/
theorem decCC_encCC (c : CodeableConcept) : decCC (encCC c) = c := rfl

/-- Quantities survive the codec. -/
theorem decQuantity_encQuantity (q : Quantity) : decQuantity (encQuantity q) = q := rfl

/-- A component's value fields set to absent. -/
def eraseComponentValues (c : ObservationComponent) : ObservationComponent :=
  ⟨c.code, none, none, none, none, none⟩

/-- Components lose their values across the codec: the encoder emits the
snake-case `value_…` keys while the decoder reads the camel-case
`value[x]` keys, so only the component code survives. -/
theorem decComponent_encComponent (c : ObservationComponent) :
    decComponent (encComponent c) = eraseComponentValues c := rfl

/-- The data-model invariants of a constructed Patient: a parseable
birth date, a valid deceased date that forces the deceased flag, and the
optional fields in their canonical absent forms (no empty lists, no
empty-string marital status or identifier types). -/
def Patient.wf (p : Patient) : Prop :=
  isYMD p.birth_date = true ∧
  deceasedDateError p.birth_date p.deceased_date = none ∧
  (p.deceased_date.isSome = true → p.deceased = true) ∧
  p.address ≠ some [] ∧
  p.telecom ≠ some [] ∧
  p.marital_status ≠ some "" ∧
  (∀ i ∈ p.identifiers, i.type ≠ some "")

instance (p : Patient) : Decidable (Patient.wf p) := by
  unfold Patient.wf
  infer_instance

/-- The data-model invariants of a constructed Observation: a valid
status, a parseable effective time, at most one active value variant,
the derived indexing fields (`patient_id`, `observation_type`)
consistent with `subject` and `code`, and optional lists in their
canonical absent forms. -/
def Observation.wf (o : Observation) : Prop :=
  o.status ∈ validObservationStatuses ∧
  pyFromIso o.effective_date_time = true ∧
  (o.value_quantity.isSome = true →
    o.value_string = none ∧ o.value_boolean = none ∧ o.value_integer = none ∧
    o.value_codeable_concept = none) ∧
  (o.value_string.isSome = true →
    o.value_boolean = none ∧ o.value_integer = none ∧ o.value_codeable_concept = none) ∧
  (o.value_boolean.isSome = true →
    o.value_integer = none ∧ o.value_codeable_concept = none) ∧
  (o.value_integer.isSome = true → o.value_codeable_concept = none) ∧
  o.patient_id = decodePatientId o.subject ∧
  o.observation_type = decodeObservationType o.code ∧
  o.interpretation ≠ some [] ∧
  o.component ≠ some []

instance (o : Observation) : Decidable (Observation.wf o) := by
  unfold Observation.wf
  infer_instance

/-- Mapping congruent functions gives equal maps. -/
theorem map_fix_g {α β : Type} (f : α → β) (g : α → β) :
    ∀ (l : List α), (∀ x ∈ l, f x = g x) → l.map f = l.map g := by
  intro l
  induction l with
  | nil => intro _; rfl
  | cons x xs ih =>
      intro h
      simp only [List.map_cons]
      rw [h x (by simp), ih (fun y hy => h y (by simp [hy]))]

/-- Round-tripping a component list erases the component values. -/
theorem comp_map_eq (l : List ObservationComponent) :
    List.map (decComponent ∘ encComponent) l = List.map eraseComponentValues l :=
  map_fix_g _ _ l (fun x _ => decComponent_encComponent x)

/-- The Patient half of the round trip. -/
theorem patient_round_trip (p : Patient) (fresh now : String) (h : Patient.wf p) :
    Patient.from_fhir p.to_fhir fresh now =
      .ok { p with created_at := now, updated_at := now } := by
  obtain ⟨hb, hd, hdc, haddr, htel, hms, hid⟩ := h
  rcases p with ⟨pid, ver, act, ids, nam, gen, bd, dec, dd, addr, tel, ms, comm, ext, ca, ua⟩
  simp only at hb hd hdc haddr htel hms hid
  unfold Patient.to_fhir Patient.from_fhir
  dsimp only
  refine (mkPatient_eval _ ?_ ?_).trans ?_
  · simp [birthDateError, hb]
  · rcases dd with _ | d <;> simpa [decodeDeceased] using hd
  · congr 1
    simp only [Patient.mk.injEq, decodeDeceased, Option.getD_some, List.map_map]
    refine ⟨trivial, trivial, trivial, ?_, ?_, trivial, trivial, ?_, ?_, ?_, ?_, ?_,
      trivial, trivial, trivial, trivial⟩
    · exact map_fix _ ids (fun i hi => decIdentifier_encIdentifier i (hid i hi))
    · exact map_fix _ nam (fun n _ => decName_encName n)
    · rcases dd with _ | d
      · rfl
      · exact (hdc rfl).symm
    · rcases dd with _ | d <;> rfl
    · rcases addr with _ | (_ | ⟨a, as⟩)
      · rfl
      · exact absurd rfl haddr
      · rw [map_fix (decAddress ∘ encAddress) _ (fun x _ => decAddress_encAddress x)]
        rfl
    · rcases tel with _ | (_ | ⟨t, ts⟩)
      · rfl
      · exact absurd rfl htel
      · rw [map_fix (decTelecom ∘ encTelecom) _ (fun x _ => decTelecom_encTelecom x)]
        rfl
    · rcases ms with _ | m
      · simp [truthyStr]
      · have hm : m ≠ "" := fun he => hms (by rw [he])
        simp [truthyStr, hm, alookup]

/-- The Observation half of the round trip: everything survives except
the bookkeeping timestamps and the component values. -/
theorem observation_round_trip (o : Observation) (fresh now : String) (h : Observation.wf o) :
    Observation.from_fhir o.to_fhir fresh now =
      .ok { o with timestamp := now, created_at := now, updated_at := now,
                   component := o.component.map (List.map eraseComponentValues) } := by
  obtain ⟨hst, heff, hx1, hx2, hx3, hx4, hpid, hot, hint, hcomp⟩ := h
  rcases o with ⟨oid, st, cat, cd, subj, patid, enc, edt, ts, iss, perf, vq, vs, vb, vi,
    vcc, dar, interp, note, bs, meth, spec, dev, rr, hmem, df, comp, otype, ca, ua⟩
  simp only at hst heff hx1 hx2 hx3 hx4 hpid hot hint hcomp
  unfold Observation.to_fhir Observation.from_fhir encValue
  dsimp only
  rcases vq with _ | q
  · rcases vs with _ | sv
    · rcases vb with _ | bv
      · rcases vi with _ | iv
        · rcases vcc with _ | cv
          · refine (mkObservation_eval _ ?_ ?_).trans ?_
            · simp [obsStatusFieldError, hst]
            · simp [obsEffectiveFieldError, heff]
            · congr 1
              simp only [Observation.mk.injEq, resolveValue, Option.getD_some, List.map_map,
                comp_map_eq]
              and_intros <;>
                first
                  | trivial
                  | exact map_fix _ cat (fun x _ => decCC_encCC x)
                  | exact decCC_encCC cd
                  | exact hpid.symm
                  | exact (congrArg decodeObservationType (decCC_encCC cd)).trans hot.symm
                  | (rcases dar with _ | x <;> rfl)
                  | (rcases bs with _ | x <;> rfl)
                  | (rcases meth with _ | x <;> rfl)
                  | (rcases interp with _ | (_ | ⟨x, xs⟩)
                     · rfl
                     · exact absurd rfl hint
                     · rw [map_fix (decCC ∘ encCC) _ (fun y _ => decCC_encCC y)]
                       rfl)
                  | (rcases comp with _ | (_ | ⟨x, xs⟩)
                     · rfl
                     · exact absurd rfl hcomp
                     · rfl)
          · refine (mkObservation_eval _ ?_ ?_).trans ?_
            · simp [obsStatusFieldError, hst]
            · simp [obsEffectiveFieldError, heff]
            · congr 1
              simp only [Observation.mk.injEq, resolveValue, Option.getD_some, List.map_map,
                comp_map_eq]
              and_intros <;>
                first
                  | trivial
                  | exact map_fix _ cat (fun x _ => decCC_encCC x)
                  | exact decCC_encCC cd
                  | exact hpid.symm
                  | exact (congrArg decodeObservationType (decCC_encCC cd)).trans hot.symm
                  | (rcases dar with _ | x <;> rfl)
                  | (rcases bs with _ | x <;> rfl)
                  | (rcases meth with _ | x <;> rfl)
                  | (rcases interp with _ | (_ | ⟨x, xs⟩)
                     · rfl
                     · exact absurd rfl hint
                     · rw [map_fix (decCC ∘ encCC) _ (fun y _ => decCC_encCC y)]
                       rfl)
                  | (rcases comp with _ | (_ | ⟨x, xs⟩)
                     · rfl
                     · exact absurd rfl hcomp
                     · rfl)
        · have e1 := hx4 rfl
          subst e1
          refine (mkObservation_eval _ ?_ ?_).trans ?_
          · simp [obsStatusFieldError, hst]
          · simp [obsEffectiveFieldError, heff]
          · congr 1
            simp only [Observation.mk.injEq, resolveValue, Option.getD_some, List.map_map,
              comp_map_eq]
            and_intros <;>
              first
                | trivial
                | exact map_fix _ cat (fun x _ => decCC_encCC x)
                | exact decCC_encCC cd
                | exact hpid.symm
                | exact (congrArg decodeObservationType (decCC_encCC cd)).trans hot.symm
                | (rcases dar with _ | x <;> rfl)
                | (rcases bs with _ | x <;> rfl)
                | (rcases meth with _ | x <;> rfl)
                | (rcases interp with _ | (_ | ⟨x, xs⟩)
                   · rfl
                   · exact absurd rfl hint
                   · rw [map_fix (decCC ∘ encCC) _ (fun y _ => decCC_encCC y)]
                     rfl)
                | (rcases comp with _ | (_ | ⟨x, xs⟩)
                   · rfl
                   · exact absurd rfl hcomp
                   · rfl)
      · obtain ⟨e1, e2⟩ := hx3 rfl
        subst e1
        subst e2
        refine (mkObservation_eval _ ?_ ?_).trans ?_
        · simp [obsStatusFieldError, hst]
        · simp [obsEffectiveFieldError, heff]
        · congr 1
          simp only [Observation.mk.injEq, resolveValue, Option.getD_some, List.map_map,
            comp_map_eq]
          and_intros <;>
            first
              | trivial
              | exact map_fix _ cat (fun x _ => decCC_encCC x)
              | exact decCC_encCC cd
              | exact hpid.symm
              | exact (congrArg decodeObservationType (decCC_encCC cd)).trans hot.symm
              | (rcases dar with _ | x <;> rfl)
              | (rcases bs with _ | x <;> rfl)
              | (rcases meth with _ | x <;> rfl)
              | (rcases interp with _ | (_ | ⟨x, xs⟩)
                 · rfl
                 · exact absurd rfl hint
                 · rw [map_fix (decCC ∘ encCC) _ (fun y _ => decCC_encCC y)]
                   rfl)
              | (rcases comp with _ | (_ | ⟨x, xs⟩)
                 · rfl
                 · exact absurd rfl hcomp
                 · rfl)
    · obtain ⟨e1, e2, e3⟩ := hx2 rfl
      subst e1
      subst e2
      subst e3
      refine (mkObservation_eval _ ?_ ?_).trans ?_
      · simp [obsStatusFieldError, hst]
      · simp [obsEffectiveFieldError, heff]
      · congr 1
        simp only [Observation.mk.injEq, resolveValue, Option.getD_some, List.map_map,
          comp_map_eq]
        and_intros <;>
          first
            | trivial
            | exact map_fix _ cat (fun x _ => decCC_encCC x)
            | exact decCC_encCC cd
            | exact hpid.symm
            | exact (congrArg decodeObservationType (decCC_encCC cd)).trans hot.symm
            | (rcases dar with _ | x <;> rfl)
            | (rcases bs with _ | x <;> rfl)
            | (rcases meth with _ | x <;> rfl)
            | (rcases interp with _ | (_ | ⟨x, xs⟩)
               · rfl
               · exact absurd rfl hint
               · rw [map_fix (decCC ∘ encCC) _ (fun y _ => decCC_encCC y)]
                 rfl)
            | (rcases comp with _ | (_ | ⟨x, xs⟩)
               · rfl
               · exact absurd rfl hcomp
               · rfl)
  · obtain ⟨e1, e2, e3, e4⟩ := hx1 rfl
    subst e1
    subst e2
    subst e3
    subst e4
    refine (mkObservation_eval _ ?_ ?_).trans ?_
    · simp [obsStatusFieldError, hst]
    · simp [obsEffectiveFieldError, heff]
    · congr 1
      simp only [Observation.mk.injEq, resolveValue, Option.getD_some, List.map_map,
        comp_map_eq]
      and_intros <;>
        first
          | trivial
          | exact map_fix _ cat (fun x _ => decCC_encCC x)
          | exact decCC_encCC cd
          | exact hpid.symm
          | exact (congrArg decodeObservationType (decCC_encCC cd)).trans hot.symm
          | (rcases dar with _ | x <;> rfl)
          | (rcases bs with _ | x <;> rfl)
          | (rcases meth with _ | x <;> rfl)
          | (rcases interp with _ | (_ | ⟨x, xs⟩)
             · rfl
             · exact absurd rfl hint
             · rw [map_fix (decCC ∘ encCC) _ (fun y _ => decCC_encCC y)]
               rfl)
          | (rcases comp with _ | (_ | ⟨x, xs⟩)
             · rfl
             · exact absurd rfl hcomp
             · rfl)

/-- A minimal heart-rate CodeableConcept. -/
def ccHeartRate : CodeableConcept :=
  ⟨[[("system", "http://loinc.org"), ("code", "8867-4")]], some "Heart rate"⟩

/-- A well-formed Observation whose single component carries an integer
value. -/
def obsCompVal : Observation :=
  { observation_id := "o1", status := "final", category := [ccHeartRate],
    code := ccHeartRate, subject := [("reference", "Patient/p1")],
    patient_id := "p1", encounter := none,
    effective_date_time := "2024-01-02T03:04:05", timestamp := "ts", issued := "is",
    performer := none, value_quantity := none, value_string := none,
    value_boolean := none, value_integer := none, value_codeable_concept := none,
    data_absent_reason := none, interpretation := none, note := none,
    body_site := none, method := none, specimen := none, device := none,
    reference_range := none, has_member := none, derived_from := none,
    component := some [⟨ccHeartRate, none, none, none, some 5, none⟩],
    observation_type := "8867-4", created_at := "c", updated_at := "u" }

/-- C2, counterexample: components do *not* round-trip — decoding the
encoding of an Observation whose component carries `value_integer = 5`
returns the component with all of its value fields absent (the encoder
writes components with snake-case keys, the decoder reads camel-case
keys), so `decode(encode(x))` differs from `x` on a non-bookkeeping
field. -/
theorem c2_counterexample :
    (Observation.from_fhir obsCompVal.to_fhir "f" "n").map Observation.component
      = .ok (some [⟨ccHeartRate, none, none, none, none, none⟩]) ∧
    (Observation.from_fhir obsCompVal.to_fhir "f" "n").map Observation.component
      ≠ .ok obsCompVal.component := by decide

/-- C2 (amended): for every Patient and Observation satisfying the
data-model invariants, `decode(encode(x))` equals `x` on every field
except the bookkeeping timestamps (`timestamp`, `created_at`,
`updated_at`) — identifiers, names, values, `data_absent_reason` and
component codes round-trip — with one exception: component *values* are
lost (they come back absent), because the encoder emits snake-case
component keys while the decoder reads camel-case ones. -/
theorem c2_round_trip :
    (∀ (p : Patient) (fresh now : String), Patient.wf p →
      Patient.from_fhir p.to_fhir fresh now =
        .ok { p with created_at := now, updated_at := now }) ∧
    (∀ (o : Observation) (fresh now : String), Observation.wf o →
      Observation.from_fhir o.to_fhir fresh now =
        .ok { o with timestamp := now, created_at := now, updated_at := now,
                     component := o.component.map (List.map eraseComponentValues) }) :=
  ⟨patient_round_trip, observation_round_trip⟩

/-- A well-formed Patient exercising identifiers, names, deceased date
and marital status. -/
def patFull : Patient :=
  { patient_id := "p1", version := "v1", active := true,
    identifiers := [⟨"http://hospital.org/mrn", "MRN123", some "MR", some "official"⟩],
    name := [⟨"Doe", ["Jane"], none, none, "official"⟩],
    gender := "female", birth_date := "1970-06-15",
    deceased := true, deceased_date := some "2020-01-01",
    address := none, telecom := none, marital_status := some "M",
    communication := none, extension := none,
    created_at := "c", updated_at := "u" }

/-- C2, witness: the round-trip theorem applied at a concrete Patient and
a concrete Observation. -/
theorem c2_witness :
    Patient.from_fhir patFull.to_fhir "f" "n" =
      .ok { patFull with created_at := "n", updated_at := "n" } ∧
    Observation.from_fhir obsCompVal.to_fhir "f" "n" =
      .ok { obsCompVal with
              timestamp := "n", created_at := "n", updated_at := "n",
              component := obsCompVal.component.map (List.map eraseComponentValues) } :=
  ⟨c2_round_trip.1 patFull "f" "n" (by decide),
   c2_round_trip.2 obsCompVal "f" "n" (by decide)⟩
